import Mathlib

/-! xlib_xdnd: the XDND drag-and-drop state machine of `spawn_window.c`

A shallow embedding of the event handling of `spawnWindow` and of the helpers it calls.

Conventions of the embedding

* `Window`, `Atom` and `Time` are the `unsigned long` values of Xlib; `None` is `0`.
* The five `long` slots `data.l[0..4]` of a client message are represented by their 64-bit
  patterns, read as natural numbers: the conversions between `long` and `unsigned long`
  that the C code performs (`data.l[0] = source`, `otherWindow = data.l[0]`,
  `data.l[0] != otherWindow`) keep the pattern, so they are the identity here.
  Where the code reads a slot as a signed number (`>> 16` into an `int`) or writes an
  `int` into a slot, the conversions `asLong`, `ofLong` and `toInt` are explicit.
* An `int` is an integer; the arithmetic on the coordinates of the square
  (`winXReturn - 25`, `square.x += event.xmotion.x - square.mouse_x`) is 32-bit and wraps
  around as the compiled code does, written `toInt`. The sums of window origins in
  `getWindowPointerIsOver` and `square.x + square.size` are left unwrapped.
* The process-wide `xdndState`, the local `square`, `clickedStillInWindow` and
  `continueEventLoop` form the state `Peer` of one process; the atoms and the own window
  `wind` form the read-only `Ctx`.
* Everything the handlers ask the X server or the file system while handling one event is
  supplied by an `XServer` value; everything they ask the X server to do is recorded, in
  program order, as a list of `Output`.
* `printf`, `drawSquare` and `XSetForeground` do not touch the state and are left out.
* `XSendEvent`, `malloc` and the file operations of `saveSquareState` are taken to succeed;
  a file that `restoreSquareState` cannot open or read ends the process (`Fault.exit`); a
  read outside a buffer, and `fopen` on the `NULL` result of `getCopiedData`, are
  `Fault.undefined`.
* A client message travels unchanged: the receiver handles the five slots the sender stored.
-/

namespace Xdnd

abbrev Window := Nat
abbrev Atom := Nat
abbrev Time := Nat

/-- The signed value of a 64-bit pattern (`unsigned long` read as `long`). -/
def asLong (n : Nat) : Int :=
  if n % 2 ^ 64 < 2 ^ 63 then ((n % 2 ^ 64 : Nat) : Int) else ((n % 2 ^ 64 : Nat) : Int) - 2 ^ 64

/-- The 64-bit pattern of a signed value (`int` or `long` stored into a `long` slot). -/
def ofLong (v : Int) : Nat := (v % 2 ^ 64).toNat

/-- Conversion of an integer value to a 32-bit `int` (two's complement wrap-around). -/
def toInt (v : Int) : Int := (v + 2 ^ 31) % 2 ^ 32 - 2 ^ 31

/-- The struct `XDNDStateMachine`. -/
structure XDNDStateMachine where
  xdndExchangeStarted : Bool
  xdndPositionReceived : Bool
  xdndStatusReceived : Bool
  xdndStatusSent : Bool
  xdndDropReceived : Bool
  xdndDropTimestamp : Time
  xdndLastPositionTimestamp : Time
  amISource : Bool
  p_rootX : Int
  p_rootY : Int
  otherWindow : Window
  proposedAction : Atom
  proposedType : Atom
  deriving DecidableEq, Repr

/-- The value left by `memset(&xdndState, 0, sizeof(xdndState))`; also the initial value of
the static `xdndState`. -/
def XDNDStateMachine.zero : XDNDStateMachine :=
  { xdndExchangeStarted := false, xdndPositionReceived := false, xdndStatusReceived := false,
    xdndStatusSent := false, xdndDropReceived := false, xdndDropTimestamp := 0,
    xdndLastPositionTimestamp := 0, amISource := false, p_rootX := 0, p_rootY := 0,
    otherWindow := 0, proposedAction := 0, proposedType := 0 }

/-- The enum `SquareColour` as the `int` it is stored as: `RedSquare = 0`. -/
def RedSquare : Int := 0

/-- The enum value `BlueSquare = 1`. -/
def BlueSquare : Int := 1

/-- The struct `Square` of `square_state.h`. -/
structure Square where
  x : Int
  y : Int
  mouse_x : Int
  mouse_y : Int
  size : Int
  visible : Bool
  selected : Bool
  colour : Int
  deriving DecidableEq, Repr

/-- The atoms interned at the start of `spawnWindow`, and the window `wind` it creates. -/
structure Ctx where
  XdndAware : Atom
  XA_ATOM : Atom
  XdndEnter : Atom
  XdndPosition : Atom
  XdndActionCopy : Atom
  XdndLeave : Atom
  XdndStatus : Atom
  XdndDrop : Atom
  XdndSelection : Atom
  XDND_DATA : Atom
  XdndTypeList : Atom
  XdndFinished : Atom
  WM_PROTOCOLS : Atom
  WM_DELETE_WINDOW : Atom
  typesWeAccept : Fin 6 → Atom
  wind : Window

/-- The union member `xclient` of an `XEvent`, format 32: the addressed window, the message
type and the five `long` slots. -/
structure ClientMessage where
  window : Window
  message_type : Atom
  format : Nat
  l0 : Nat
  l1 : Nat
  l2 : Nat
  l3 : Nat
  l4 : Nat
  deriving DecidableEq, Repr

/-- The fields of an `XSelectionRequestEvent` the code reads. -/
structure SelectionRequest where
  requestor : Window
  selection : Atom
  target : Atom
  property : Atom
  time : Time
  deriving DecidableEq, Repr

/-- The events `spawnWindow` distinguishes, with the fields it reads. -/
inductive XEvent where
  | selectionRequest (req : SelectionRequest)
  | selectionNotify (property : Atom)
  | motionNotify (x y x_root y_root : Int) (time : Time)
  | keyRelease (keycode : Nat)
  | buttonPress (x y : Int)
  | buttonRelease
  | expose
  | enterNotify
  | leaveNotify
  | clientMessage (m : ClientMessage)
  | other
  deriving DecidableEq, Repr

/-- The requests a handler makes to the X server (and the file it writes), in program order. -/
inductive Output where
  | sendEvent (target : Window) (m : ClientMessage)
  | sendSelectionNotify (target : Window) (req : SelectionRequest)
  | changeProperty (w : Window) (property type : Atom) (format : Nat) (data : List Nat)
  | deleteProperty (w : Window) (property : Atom)
  | setSelectionOwner (selection : Atom) (owner : Window) (time : Time)
  | convertSelection (selection target property : Atom) (requestor : Window) (time : Time)
  | fwrite (path : List Nat) (colour : Int)
  deriving DecidableEq, Repr

/-- A window with its `XGetWindowAttributes` geometry and its `XQueryTree` children, listed
bottom-most first as the server does. A window whose `XQueryTree` fails has no children. -/
inductive WTree where
  | node (id : Window) (x y width height : Int) (children : List WTree)

/-- What `XGetWindowProperty` returns for a property: its type and its items. -/
structure Property where
  actualType : Atom
  items : List Nat

/-- The answers of the X server and of the file system during the handling of one event. -/
structure XServer where
  /-- The root window with all its descendants. -/
  tree : WTree
  /-- The reply to `XGetWindowProperty(w, XdndAware)`; `none` when it is not `Success`. -/
  xdndAware : Window → Option Property
  /-- The reply to `XGetWindowProperty(w, XdndTypeList)`; `none` when it is not `Success`. -/
  typeList : Window → Option Property
  /-- The `numOfItems` bytes `XGetWindowProperty(wind, XDND_DATA)` returns. -/
  xdndData : Option (List Nat)
  /-- The window-relative pointer position of `XQueryPointer`. -/
  winXReturn : Int
  winYReturn : Int
  /-- The colour `restoreSquareState` reads from the file of the given path; `none` when
  `fopen` or `fread` fails. -/
  fread : List Nat → Option Int

/-- How the handling of an event can fail to return to the event loop. -/
inductive Fault where
  | exit
  | undefined
  deriving DecidableEq, Repr

deriving instance DecidableEq for Except

/-- The state of one process between two events. -/
structure Peer where
  xdndState : XDNDStateMachine
  square : Square
  clickedStillInWindow : Bool
  continueEventLoop : Bool
  deriving DecidableEq, Repr

/-! ## Helpers of `spawn_window.c` -/

/-- The function `isPointerInsideSquare`. -/
def isPointerInsideSquare (x y : Int) (square : Square) : Bool :=
  decide (x ≥ square.x) && decide (x < square.x + square.size) &&
    decide (y ≥ square.y) && decide (y < square.y + square.size)

/-- The test of the loop body of `getWindowPointerIsOver`: the point lies in the child. -/
def pointerInChild (p_rootX p_rootY originX originY : Int) : WTree → Bool
  | .node _ x y width height _ =>
    decide (p_rootX ≥ originX + x) && decide (p_rootX < originX + x + width) &&
      decide (p_rootY ≥ originY + y) && decide (p_rootY < originY + y + height)

mutual
/-- The function `getWindowPointerIsOver`, on the window tree below `startingWindow`. -/
def getWindowPointerIsOver : WTree → Int → Int → Int → Int → Window
  | .node id _ _ _ _ children, p_rootX, p_rootY, originX, originY =>
    let returnWindow := (searchChildren children p_rootX p_rootY originX originY).getD 0
    if returnWindow == 0 then id else returnWindow
/-- The loop `for (i = numOfChildren - 1; i >= 0; --i)`: the children later in the list are
tried first; the result is `none` when the loop ends without `break`. -/
def searchChildren : List WTree → Int → Int → Int → Int → Option Window
  | [], _, _, _, _ => none
  | c :: cs, p_rootX, p_rootY, originX, originY =>
    match searchChildren cs p_rootX p_rootY originX originY with
    | some w => some w
    | none =>
      if pointerInChild p_rootX p_rootY originX originY c then
        match c with
        | .node _ x y _ _ _ =>
          some (getWindowPointerIsOver c p_rootX p_rootY (originX + x) (originY + y))
      else none
end

/-- The macro `XDND_PROTOCOL_VERSION`. -/
def XDND_PROTOCOL_VERSION : Nat := 5

/-- The function `hasCorrectXdndAwareProperty`, on the reply of `XGetWindowProperty`.
`data[0]` is the low byte of the first item (zero when there is none). -/
def hasCorrectXdndAwareProperty (reply : Option Property) : Nat :=
  match reply with
  | none => 0
  | some prop =>
    if prop.actualType != 0 then
      let data0 := prop.items.headD 0 % 256
      if data0 ≤ XDND_PROTOCOL_VERSION then data0 else 0
    else 0

/-- The function `sendXdndEnter`: the events it hands to `XSendEvent`. -/
def sendXdndEnter (c : Ctx) (s : XDNDStateMachine) (xdndVersion : Nat) (source target : Window) :
    List Output :=
  if !s.xdndExchangeStarted then
    [Output.sendEvent target
      { window := target, message_type := c.XdndEnter, format := 32, l0 := source,
        l1 := xdndVersion <<< 24, l2 := c.typesWeAccept 0, l3 := 0, l4 := 0 }]
  else []

/-- The function `sendXdndPosition`; `time`, `p_rootX` and `p_rootY` are its `int` parameters. -/
def sendXdndPosition (c : Ctx) (s : XDNDStateMachine) (source target : Window)
    (time p_rootX p_rootY : Int) : List Output :=
  if s.xdndExchangeStarted && s.amISource then
    [Output.sendEvent target
      { window := target, message_type := c.XdndPosition, format := 32, l0 := source,
        l1 := 0, l2 := ofLong (toInt (Int.lor (p_rootX * 2 ^ 16) p_rootY)),
        l3 := ofLong time, l4 := c.XdndActionCopy }]
  else []

/-- The function `sendXdndLeave`. -/
def sendXdndLeave (c : Ctx) (s : XDNDStateMachine) (source target : Window) : List Output :=
  if s.xdndExchangeStarted && s.amISource then
    [Output.sendEvent target
      { window := target, message_type := c.XdndLeave, format := 32, l0 := source,
        l1 := 0, l2 := 0, l3 := 0, l4 := 0 }]
  else []

/-- The function `sendXdndFinished`. -/
def sendXdndFinished (c : Ctx) (s : XDNDStateMachine) (source target : Window) : List Output :=
  if s.xdndExchangeStarted && !s.amISource then
    [Output.sendEvent target
      { window := target, message_type := c.XdndFinished, format := 32, l0 := source,
        l1 := 1, l2 := c.XdndActionCopy, l3 := 0, l4 := 0 }]
  else []

/-- The function `sendXdndStatus`. -/
def sendXdndStatus (c : Ctx) (s : XDNDStateMachine) (source target : Window) (action : Atom) :
    List Output :=
  if s.xdndExchangeStarted && !s.amISource then
    [Output.sendEvent target
      { window := target, message_type := c.XdndStatus, format := 32, l0 := source,
        l1 := 1, l2 := 0, l3 := 0, l4 := action }]
  else []

/-- The function `sendXdndDrop`. -/
def sendXdndDrop (c : Ctx) (s : XDNDStateMachine) (source target : Window) : List Output :=
  if s.xdndExchangeStarted && s.amISource then
    [Output.sendEvent target
      { window := target, message_type := c.XdndDrop, format := 32, l0 := source,
        l1 := 0, l2 := s.xdndLastPositionTimestamp, l3 := 0, l4 := 0 }]
  else []

/-! ### C strings as lists of bytes -/

/-- The bytes of a C string stored at the start of a buffer: those before the first NUL. -/
def cstr (buf : List Nat) : List Nat := buf.takeWhile (fun b => b != 0)

/-- The function `strlen` at the start of a buffer. -/
def strlen (buf : List Nat) : Nat := (cstr buf).length

/-- Whether `strstr(haystack, needle) != NULL`, both given by their bytes. -/
def strstrFound : List Nat → List Nat → Bool
  | [], needle => needle.isEmpty
  | b :: bs, needle => needle.isPrefixOf (b :: bs) || strstrFound bs needle

/-- The bytes of the string literal `file://`. -/
def fileScheme : List Nat := [102, 105, 108, 101, 58, 47, 47]

/-- The bytes of `SQUARE_FILE_PATH`, the string `/tmp/square.state`. -/
def SQUARE_FILE_PATH : List Nat :=
  [47, 116, 109, 112, 47, 115, 113, 117, 97, 114, 101, 46, 115, 116, 97, 116, 101]

/-- The buffer `propertyData` of `sendSelectionNotify` as handed to `XChangeProperty`:
`strcpy`, `strcat`, the three stores at the end, and the first `sizeOfPropertyData-1` bytes.
The two bytes `malloc` leaves unspecified behind the string are overwritten by the stores. -/
def propertyData (pathStr : List Nat) : List Nat :=
  let sizeOfPropertyData := strlen fileScheme + strlen pathStr + 3
  let afterStrcat := fileScheme ++ cstr pathStr ++ [0] ++ [0, 0]
  let stored := ((afterStrcat.set (sizeOfPropertyData - 3) 0xD).set
    (sizeOfPropertyData - 2) 0xA).set (sizeOfPropertyData - 1) 0
  stored.take (sizeOfPropertyData - 1)

/-- The function `sendSelectionNotify`. -/
def sendSelectionNotify (c : Ctx) (s : XDNDStateMachine) (selectionRequest : SelectionRequest)
    (pathStr : List Nat) : List Output :=
  if s.xdndExchangeStarted && s.amISource then
    [Output.changeProperty selectionRequest.requestor selectionRequest.property
        (c.typesWeAccept 0) 8 (propertyData pathStr),
      Output.sendSelectionNotify selectionRequest.requestor selectionRequest]
  else []

/-- The function `doWeAcceptAtom`. -/
def doWeAcceptAtom (c : Ctx) (a : Atom) : Bool :=
  (List.finRange 6).any (fun i => a == c.typesWeAccept i)

/-- The loop of `getSupportedType` over `supportedAtoms`: the first accepted atom, else
`None`. -/
def firstSupported (c : Ctx) : List Atom → Atom
  | [] => 0
  | a :: rest => if doWeAcceptAtom c a then a else firstSupported c rest

/-- The function `getSupportedType`, on the reply of `XGetWindowProperty` for `XdndTypeList`
(a property of format 32, whose items are the atoms). -/
def getSupportedType (c : Ctx) (reply : Option Property) : Atom :=
  match reply with
  | none => 0
  | some prop => if prop.actualType != 0 then firstSupported c prop.items else 0

/-- The function `getCopiedData`, on the bytes `XGetWindowProperty` returned: `none` is the
`NULL` result; reading `tempPtr[strlen(tempPtr)-2]` before the start of `tempBuffer` is
`Fault.undefined`. -/
def getCopiedData (reply : Option (List Nat)) : Except Fault (Option (List Nat)) :=
  match reply with
  | none => .ok none
  | some data =>
    let tempBuffer := data ++ [0]
    let tempPtr := if strstrFound (cstr tempBuffer) fileScheme then 7 else 0
    let len := strlen (tempBuffer.drop tempPtr)
    if tempPtr + len < 2 then .error Fault.undefined
    else
      let i := tempPtr + len - 2
      let tempBuffer1 :=
        if tempBuffer.getD i 0 == 0xD && tempBuffer.getD (i + 1) 0 == 0xA then
          tempBuffer.set i 0
        else tempBuffer
      .ok (some (cstr (tempBuffer1.drop tempPtr)))

/-! ## The event loop of `spawnWindow` -/

/-- The clamping `if (v < 0) v = 0; if (v > 150) v = 150;` applied to a square coordinate. -/
def clampCoord (v : Int) : Int :=
  let v1 := if v < 0 then 0 else v
  if v1 > 150 then 150 else v1

/-- The case `SelectionRequest`. -/
def handleSelectionRequest (c : Ctx) (p : Peer) (req : SelectionRequest) : Peer × List Output :=
  if p.xdndState.xdndExchangeStarted && p.xdndState.amISource then
    (p, Output.fwrite SQUARE_FILE_PATH p.square.colour ::
      sendSelectionNotify c p.xdndState req SQUARE_FILE_PATH)
  else (p, [])

/-- The case `SelectionNotify`. -/
def handleSelectionNotify (c : Ctx) (srv : XServer) (p : Peer) (property : Atom) :
    Except Fault (Peer × List Output) :=
  if property != c.XDND_DATA then .ok (p, [])
  else
    match getCopiedData srv.xdndData with
    | .error f => .error f
    | .ok none => .error Fault.undefined
    | .ok (some pathStr) =>
      match srv.fread pathStr with
      | none => .error Fault.exit
      | some colour =>
        let square := { p.square with
          colour := colour, visible := true,
          x := clampCoord (toInt (srv.winXReturn - 25)),
          y := clampCoord (toInt (srv.winYReturn - 25)) }
        .ok ({ p with square := square, xdndState := XDNDStateMachine.zero },
          Output.deleteProperty c.wind c.XDND_DATA ::
            sendXdndFinished c p.xdndState c.wind p.xdndState.otherWindow)

/-- The end of the case `MotionNotify`: the `XdndPosition` message, sent while no
`XdndStatus` has been received. -/
def motionSendPosition (c : Ctx) (s : XDNDStateMachine) (targetWindow : Window)
    (x_root y_root : Int) (time : Time) : List Output :=
  if !s.xdndStatusReceived then
    sendXdndPosition c s c.wind targetWindow (toInt (time : Int)) x_root y_root
  else []

/-- The first part of the outside-window branch of `MotionNotify`: when an exchange is
ongoing and the pointer is over another window, send `XdndLeave` and wipe the state. -/
def motionLeave (c : Ctx) (s : XDNDStateMachine) (targetWindow : Window) :
    XDNDStateMachine × List Output :=
  if s.xdndExchangeStarted && targetWindow != s.otherWindow then
    (XDNDStateMachine.zero, sendXdndLeave c s c.wind s.otherWindow)
  else (s, [])

/-- The second part: when no exchange is started, engage one with `targetWindow` if it
supports XDND; `none` is the `break` on a window that does not. -/
def motionEnter (c : Ctx) (srv : XServer) (s : XDNDStateMachine) (targetWindow : Window)
    (time : Time) : Option (XDNDStateMachine × List Output) :=
  if !s.xdndExchangeStarted then
    let supportsXdnd := hasCorrectXdndAwareProperty (srv.xdndAware targetWindow)
    if supportsXdnd == 0 then none
    else
      some ({ s with
          xdndExchangeStarted := true, amISource := true, otherWindow := targetWindow },
        Output.setSelectionOwner c.XdndSelection c.wind time ::
          sendXdndEnter c s supportsXdnd c.wind targetWindow)
  else some (s, [])

/-- The case `MotionNotify`. -/
def handleMotionNotify (c : Ctx) (srv : XServer) (p : Peer) (x y x_root y_root : Int)
    (time : Time) : Peer × List Output :=
  if p.square.selected then
    let square := { p.square with
      x := clampCoord (toInt (p.square.x + toInt (x - p.square.mouse_x))),
      y := clampCoord (toInt (p.square.y + toInt (y - p.square.mouse_y))),
      mouse_x := x, mouse_y := y }
    if !p.clickedStillInWindow then
      let targetWindow := getWindowPointerIsOver srv.tree x_root y_root 0 0
      if targetWindow == 0 then ({ p with square := square }, [])
      else
        let (s1, out1) := motionLeave c p.xdndState targetWindow
        match motionEnter c srv s1 targetWindow time with
        | none => ({ p with square := square, xdndState := s1 }, out1)
        | some (s2, out2) =>
          ({ p with square := square, xdndState := s2 },
            out1 ++ out2 ++ motionSendPosition c s2 targetWindow x_root y_root time)
    else ({ p with square := square }, [])
  else (p, [])

/-- The case `KeyRelease`. -/
def handleKeyRelease (p : Peer) (keycode : Nat) : Peer :=
  if p.square.visible && keycode == 38 then
    { p with square := { p.square with
        colour := if p.square.colour == RedSquare then BlueSquare else RedSquare } }
  else p

/-- The case `ButtonPress`. -/
def handleButtonPress (p : Peer) (x y : Int) : Peer :=
  if isPointerInsideSquare x y p.square then
    { p with
      square := { p.square with selected := true, mouse_x := x, mouse_y := y },
      clickedStillInWindow := true }
  else p

/-- The case `ButtonRelease`. -/
def handleButtonRelease (c : Ctx) (p : Peer) : Peer × List Output :=
  let out :=
    if p.xdndState.xdndExchangeStarted && p.xdndState.amISource &&
        p.xdndState.xdndStatusReceived then
      sendXdndDrop c p.xdndState c.wind p.xdndState.otherWindow
    else []
  let p1 := if p.square.selected then { p with square := { p.square with selected := false } }
    else p
  (p1, out)

/-- The `XdndEnter` branch of the case `ClientMessage`, taken while no exchange is started. -/
def handleXdndEnter (c : Ctx) (srv : XServer) (s : XDNDStateMachine) (m : ClientMessage) :
    XDNDStateMachine :=
  let s1 := { s with
    xdndExchangeStarted := true, amISource := false, otherWindow := m.l0 }
  if m.l1 &&& 0x1 != 0 then
    { s1 with proposedType := getSupportedType c (srv.typeList s1.otherWindow) }
  else
    { s1 with proposedType := firstSupported c [m.l2, m.l3, m.l4] }

/-- The source branch of the case `ClientMessage` while an exchange is started. -/
def handleSourceMessage (c : Ctx) (p : Peer) (m : ClientMessage) : Peer × List Output :=
  if m.message_type == c.XdndStatus then
    let s1 := { p.xdndState with xdndStatusReceived := true }
    if m.l1 &&& 0x1 != 1 then
      ({ p with xdndState := XDNDStateMachine.zero },
        sendXdndLeave c s1 c.wind s1.otherWindow)
    else ({ p with xdndState := s1 }, [])
  else if m.message_type == c.XdndFinished then
    ({ p with square := { p.square with visible := false },
              xdndState := XDNDStateMachine.zero }, [])
  else (p, [])

/-- The `XdndPosition` test of the target branch; `none` is the `break` on a wrong sender. -/
def handleXdndPosition (c : Ctx) (s : XDNDStateMachine) (m : ClientMessage) :
    Option (XDNDStateMachine × List Output) :=
  if m.message_type == c.XdndPosition then
    if s.xdndPositionReceived && m.l0 != s.otherWindow then none
    else
      let s1 := { s with
        xdndPositionReceived := true,
        p_rootX := toInt (asLong m.l2 >>> 16),
        p_rootY := toInt (Int.land (asLong m.l2) 0xFFFF),
        proposedAction := m.l4,
        xdndLastPositionTimestamp := m.l3 }
      if !s1.xdndStatusSent then
        let s2 := { s1 with xdndStatusSent := true }
        some (s2, sendXdndStatus c s2 c.wind s2.otherWindow s2.proposedAction)
      else some (s1, [])
  else some (s, [])

/-- The `XdndLeave` test of the target branch. -/
def handleXdndLeave (c : Ctx) (s : XDNDStateMachine) (m : ClientMessage) : XDNDStateMachine :=
  if m.message_type == c.XdndLeave then XDNDStateMachine.zero else s

/-- The `XdndDrop` test of the target branch. -/
def handleXdndDrop (c : Ctx) (s : XDNDStateMachine) (m : ClientMessage) :
    XDNDStateMachine × List Output :=
  if m.message_type == c.XdndDrop then
    if !s.xdndPositionReceived || m.l0 != s.otherWindow then (s, [])
    else
      let s1 := { s with xdndDropReceived := true, xdndDropTimestamp := m.l2 }
      (s1, [Output.convertSelection c.XdndSelection s1.proposedType c.XDND_DATA c.wind
        s1.xdndDropTimestamp])
  else (s, [])

/-- The target branch of the case `ClientMessage` while an exchange is started: the three
tests in sequence. -/
def handleTargetMessage (c : Ctx) (p : Peer) (m : ClientMessage) : Peer × List Output :=
  match handleXdndPosition c p.xdndState m with
  | none => (p, [])
  | some (s1, out1) =>
    let s2 := handleXdndLeave c s1 m
    let (s3, out3) := handleXdndDrop c s2 m
    ({ p with xdndState := s3 }, out1 ++ out3)

/-- The case `ClientMessage`. -/
def handleClientMessage (c : Ctx) (srv : XServer) (p : Peer) (m : ClientMessage) :
    Peer × List Output :=
  if m.message_type == c.WM_PROTOCOLS && m.l0 == c.WM_DELETE_WINDOW then
    ({ p with continueEventLoop := false }, [])
  else if !p.xdndState.xdndExchangeStarted then
    if m.message_type == c.XdndEnter then
      ({ p with xdndState := handleXdndEnter c srv p.xdndState m }, [])
    else (p, [])
  else if p.xdndState.amISource then handleSourceMessage c p m
  else handleTargetMessage c p m

/-- One iteration of the event loop: the `switch (event.type)` of `spawnWindow`. -/
def step (c : Ctx) (srv : XServer) (p : Peer) : XEvent → Except Fault (Peer × List Output)
  | .selectionRequest req => .ok (handleSelectionRequest c p req)
  | .selectionNotify property => handleSelectionNotify c srv p property
  | .motionNotify x y x_root y_root time => .ok (handleMotionNotify c srv p x y x_root y_root time)
  | .keyRelease keycode => .ok (handleKeyRelease p keycode, [])
  | .buttonPress x y => .ok (handleButtonPress p x y, [])
  | .buttonRelease => .ok (handleButtonRelease c p)
  | .expose => .ok (p, [])
  | .enterNotify =>
    .ok (if p.square.selected then { p with clickedStillInWindow := true } else p, [])
  | .leaveNotify =>
    .ok (if p.square.selected then { p with clickedStillInWindow := false } else p, [])
  | .clientMessage m => .ok (handleClientMessage c srv p m)
  | .other => .ok (p, [])

/-- The state of a process when it enters the event loop; `procId == 0` shows its square. -/
def initialPeer (procId : Int) : Peer :=
  { xdndState := XDNDStateMachine.zero,
    square := { x := 0, y := 0, mouse_x := 0, mouse_y := 0, size := 50,
                visible := decide (procId = 0), selected := false, colour := RedSquare },
    clickedStillInWindow := false,
    continueEventLoop := true }

/-- The event loop on a finite sequence of events, each with the answers of the X server
during its handling: the state and the outputs after each event handled. The loop stops when
`continueEventLoop` is cleared or a handler does not return. -/
def runLoop (c : Ctx) (p : Peer) : List (XEvent × XServer) → List (Peer × List Output)
  | [] => []
  | (e, srv) :: rest =>
    if p.continueEventLoop then
      match step c srv p e with
      | .ok (p1, out) => (p1, out) :: runLoop c p1 rest
      | .error _ => []
    else []

/-! ## Vocabulary of the statements -/

/-- The atoms of the protocol messages are pairwise different, as `XInternAtom` returns
different atoms for different names. -/
def Ctx.MessageAtomsDistinct (c : Ctx) : Prop :=
  [c.XdndEnter, c.XdndPosition, c.XdndLeave, c.XdndStatus, c.XdndDrop, c.XdndFinished,
    c.WM_PROTOCOLS].Nodup

instance (c : Ctx) : Decidable c.MessageAtomsDistinct := by
  unfold Ctx.MessageAtomsDistinct; infer_instance

/-- The six accepted types are atoms, none of them `None`. -/
def Ctx.TypesInterned (c : Ctx) : Prop := ∀ i : Fin 6, c.typesWeAccept i ≠ 0

instance (c : Ctx) : Decidable c.TypesInterned := by
  unfold Ctx.TypesInterned; infer_instance

/-- Membership of an atom in the set of the six accepted types. -/
def Accepted (c : Ctx) (a : Atom) : Prop := ∃ i : Fin 6, a = c.typesWeAccept i

/-- Following the spec: `r` is the first locally accepted type of the advertised list `adv`,
in the order of the peer: the element of smallest index that is accepted, or `None` when no
element is accepted. -/
def IsFirstAccepted (c : Ctx) (adv : List Atom) (r : Atom) : Prop :=
  (∃ i : Nat, adv[i]? = some r ∧ Accepted c r ∧
    ∀ k : Nat, k < i → ∀ a, adv[k]? = some a → ¬ Accepted c a) ∨
  (r = 0 ∧ ∀ a ∈ adv, ¬ Accepted c a)

/-- A context for concrete examples: atoms `1 .. 14`, the accepted types `21 .. 26`. -/
def exampleCtx (wind : Window) : Ctx :=
  { XdndAware := 1, XA_ATOM := 2, XdndEnter := 3, XdndPosition := 4, XdndActionCopy := 5,
    XdndLeave := 6, XdndStatus := 7, XdndDrop := 8, XdndSelection := 9, XDND_DATA := 10,
    XdndTypeList := 11, XdndFinished := 12, WM_PROTOCOLS := 13, WM_DELETE_WINDOW := 14,
    typesWeAccept := fun i => 21 + i.val, wind := wind }

/-- An X server for concrete examples: a root window `100` with the three top-level windows
`101` (at `0,0`), `102` (at `200,0`) and `103` (at `400,0`), all 200 by 200 and XDND-aware
with version 5. -/
def exampleServer (xdndData : Option (List Nat)) : XServer :=
  { tree := WTree.node 100 0 0 1000 1000
      [WTree.node 101 0 0 200 200 [], WTree.node 102 200 0 200 200 [],
        WTree.node 103 400 0 200 200 []],
    xdndAware := fun _ => some { actualType := 2, items := [5] },
    typeList := fun _ => none,
    xdndData := xdndData,
    winXReturn := 60, winYReturn := 70,
    fread := fun _ => some 0 }

/-- A source for concrete examples (own window `101`): its square is selected and dragged
out of the window, and it negotiates with window `102`, no `XdndStatus` received yet. -/
def exampleSource : Peer :=
  { xdndState := { XDNDStateMachine.zero with
      xdndExchangeStarted := true, amISource := true, otherWindow := 102 },
    square := { x := 150, y := 20, mouse_x := 199, mouse_y := 30, size := 50,
                visible := true, selected := true, colour := RedSquare },
    clickedStillInWindow := false,
    continueEventLoop := true }

/-- An idle source for concrete examples (own window `101`): its square is selected and
dragged out of the window. -/
def exampleDragging : Peer :=
  { exampleSource with xdndState := XDNDStateMachine.zero }

/-- A target for concrete examples (own window `102`): it has handled the `XdndEnter` of
window `101` and selected `text/uri-list`, and has not received a position yet. -/
def exampleTarget : Peer :=
  { xdndState := { XDNDStateMachine.zero with
      xdndExchangeStarted := true, otherWindow := 101, proposedType := 21 },
    square := { x := 0, y := 0, mouse_x := 0, mouse_y := 0, size := 50,
                visible := false, selected := false, colour := RedSquare },
    clickedStillInWindow := false,
    continueEventLoop := true }

/-- The target `exampleTarget` after a first `XdndPosition` of window `101`. -/
def exampleTargetTracking : Peer :=
  { exampleTarget with xdndState := { exampleTarget.xdndState with
      xdndPositionReceived := true, xdndStatusSent := true, p_rootX := 250, p_rootY := 50,
      proposedAction := 5, xdndLastPositionTimestamp := 1000 } }

/-- A client message of the given type and sender, the other slots zero. -/
def exampleMessage (window message_type l0 : Nat) : ClientMessage :=
  { window := window, message_type := message_type, format := 32, l0 := l0,
    l1 := 0, l2 := 0, l3 := 0, l4 := 0 }

/-- The happy path of the protocol between a source `X` (context `c`, own window `c.wind`)
and a target `Y` (own window `wY`), as a chain of steps in which each peer handles exactly
what the other emitted: the events `X` sends with `XSendEvent` reach `Y` unchanged and vice
versa, the `XConvertSelection` of `Y` reaches `X` as a `SelectionRequest` with the same
fields, and the `SelectionNotify` reaches `Y`. `srvX` answers `X` during the motion event,
`srvY` answers `Y` during the `SelectionNotify`, `srv` answers during all other steps. -/
def HappyPath (c : Ctx) (wY : Window) (srvX srv srvY : XServer) (pX pY : Peer)
    (x y x_root y_root : Int) (time : Time) : Prop :=
  ∃ x1 y1 y2 x2 x3 y3 x4 y4 x5 : Peer,
    step c srvX pX (.motionNotify x y x_root y_root time) = .ok
      (x1,
       [Output.setSelectionOwner c.XdndSelection c.wind time,
        Output.sendEvent wY
          { window := wY, message_type := c.XdndEnter, format := 32, l0 := c.wind,
            l1 := hasCorrectXdndAwareProperty (srvX.xdndAware wY) <<< 24,
            l2 := c.typesWeAccept 0, l3 := 0, l4 := 0 },
        Output.sendEvent wY
          { window := wY, message_type := c.XdndPosition, format := 32, l0 := c.wind,
            l1 := 0, l2 := ofLong (toInt (Int.lor (x_root * 2 ^ 16) y_root)),
            l3 := ofLong (toInt (time : Int)), l4 := c.XdndActionCopy }]) ∧
    step { c with wind := wY } srv pY (.clientMessage
          { window := wY, message_type := c.XdndEnter, format := 32, l0 := c.wind,
            l1 := hasCorrectXdndAwareProperty (srvX.xdndAware wY) <<< 24,
            l2 := c.typesWeAccept 0, l3 := 0, l4 := 0 }) = .ok (y1, []) ∧
    step { c with wind := wY } srv y1 (.clientMessage
          { window := wY, message_type := c.XdndPosition, format := 32, l0 := c.wind,
            l1 := 0, l2 := ofLong (toInt (Int.lor (x_root * 2 ^ 16) y_root)),
            l3 := ofLong (toInt (time : Int)), l4 := c.XdndActionCopy }) = .ok
      (y2,
       [Output.sendEvent c.wind
          { window := c.wind, message_type := c.XdndStatus, format := 32, l0 := wY,
            l1 := 1, l2 := 0, l3 := 0, l4 := c.XdndActionCopy }]) ∧
    step c srv x1 (.clientMessage
          { window := c.wind, message_type := c.XdndStatus, format := 32, l0 := wY,
            l1 := 1, l2 := 0, l3 := 0, l4 := c.XdndActionCopy }) = .ok (x2, []) ∧
    step c srv x2 .buttonRelease = .ok
      (x3,
       [Output.sendEvent wY
          { window := wY, message_type := c.XdndDrop, format := 32, l0 := c.wind,
            l1 := 0, l2 := 0, l3 := 0, l4 := 0 }]) ∧
    step { c with wind := wY } srv y2 (.clientMessage
          { window := wY, message_type := c.XdndDrop, format := 32, l0 := c.wind,
            l1 := 0, l2 := 0, l3 := 0, l4 := 0 }) = .ok
      (y3, [Output.convertSelection c.XdndSelection (c.typesWeAccept 0) c.XDND_DATA wY 0]) ∧
    step c srv x3 (.selectionRequest
          { requestor := wY, selection := c.XdndSelection, target := c.typesWeAccept 0,
            property := c.XDND_DATA, time := 0 }) = .ok
      (x4,
       [Output.fwrite SQUARE_FILE_PATH pX.square.colour,
        Output.changeProperty wY c.XDND_DATA (c.typesWeAccept 0) 8
          (propertyData SQUARE_FILE_PATH),
        Output.sendSelectionNotify wY
          { requestor := wY, selection := c.XdndSelection, target := c.typesWeAccept 0,
            property := c.XDND_DATA, time := 0 }]) ∧
    step { c with wind := wY } srvY y3 (.selectionNotify c.XDND_DATA) = .ok
      (y4,
       [Output.deleteProperty wY c.XDND_DATA,
        Output.sendEvent c.wind
          { window := c.wind, message_type := c.XdndFinished, format := 32, l0 := wY,
            l1 := 1, l2 := c.XdndActionCopy, l3 := 0, l4 := 0 }]) ∧
    y4.xdndState = XDNDStateMachine.zero ∧ y4.square.visible = true ∧
    y4.square.colour = pX.square.colour ∧
    0 ≤ y4.square.x ∧ y4.square.x ≤ 150 ∧ 0 ≤ y4.square.y ∧ y4.square.y ≤ 150 ∧
    step c srv x4 (.clientMessage
          { window := c.wind, message_type := c.XdndFinished, format := 32, l0 := wY,
            l1 := 1, l2 := c.XdndActionCopy, l3 := 0, l4 := 0 }) = .ok (x5, []) ∧
    x5.xdndState = XDNDStateMachine.zero ∧ x5.square.visible = false

/-- Each of the five flags of the session that was set in `s` is still set in `t`. -/
def FlagsKept (s t : XDNDStateMachine) : Prop :=
  (s.xdndExchangeStarted = true → t.xdndExchangeStarted = true) ∧
  (s.xdndPositionReceived = true → t.xdndPositionReceived = true) ∧
  (s.xdndStatusReceived = true → t.xdndStatusReceived = true) ∧
  (s.xdndStatusSent = true → t.xdndStatusSent = true) ∧
  (s.xdndDropReceived = true → t.xdndDropReceived = true)

/-- The session `t` left by a step on event `e` that discarded the whole session `s` with
`memset`. Either `t` is the zero value. Or `e` is a pointer motion over a window
`targetWindow` that is not the peer of the started session `s`: the first part of the
handler, `motionLeave`, left the zero value, and `t` is that zero value in which the rest of
the handler has opened a new exchange as source with `targetWindow`, a window other than the
peer of `s`. -/
def WipedInStep (c : Ctx) (srv : XServer) (s : XDNDStateMachine) (e : XEvent)
    (t : XDNDStateMachine) : Prop :=
  t = XDNDStateMachine.zero ∨
  match e with
  | .motionNotify _ _ x_root y_root _ =>
    let targetWindow := getWindowPointerIsOver srv.tree x_root y_root 0 0
    s.xdndExchangeStarted = true ∧ targetWindow ≠ s.otherWindow ∧
    (motionLeave c s targetWindow).1 = XDNDStateMachine.zero ∧
    t = { XDNDStateMachine.zero with
      xdndExchangeStarted := true, amISource := true, otherWindow := targetWindow }
  | _ => False

mutual
/-- The ids of all windows of a window tree. -/
def WTree.ids : WTree → List Window
  | .node id _ _ _ _ children => id :: WTree.idsOfList children
/-- The ids of all windows of a list of window trees. -/
def WTree.idsOfList : List WTree → List Window
  | [] => []
  | c :: cs => c.ids ++ WTree.idsOfList cs
end

theorem doWeAcceptAtom_iff (c : Ctx) (a : Atom) : doWeAcceptAtom c a = true ↔ Accepted c a := by
  simp [doWeAcceptAtom, Accepted, List.any_eq_true]

theorem firstSupported_spec (c : Ctx) (adv : List Atom) :
    IsFirstAccepted c adv (firstSupported c adv) := by
  unfold IsFirstAccepted
  induction adv with
  | nil => right; simp [firstSupported]
  | cons a rest ih =>
    unfold firstSupported
    by_cases h : doWeAcceptAtom c a = true
    · left
      rw [if_pos h]
      exact ⟨0, by simp, (doWeAcceptAtom_iff c a).1 h, by intro k hk; omega⟩
    · rw [if_neg h]
      have ha : ¬ Accepted c a := fun hacc => h ((doWeAcceptAtom_iff c a).2 hacc)
      rcases ih with ⟨i, hi, hacc, hmin⟩ | ⟨h0, hnone⟩
      · left
        refine ⟨i + 1, by simpa using hi, hacc, ?_⟩
        intro k hk b hb
        cases k with
        | zero =>
          have : a = b := by simpa using hb
          exact this ▸ ha
        | succ k => exact hmin k (by omega) b (by simpa using hb)
      · right
        refine ⟨h0, ?_⟩
        intro b hb
        rcases List.mem_cons.1 hb with rfl | hb
        · exact ha
        · exact hnone b hb

theorem firstSupported_eq_zero_iff (c : Ctx) (hne : c.TypesInterned) (adv : List Atom) :
    firstSupported c adv = 0 ↔ ∀ a ∈ adv, ¬ Accepted c a := by
  induction adv with
  | nil => simp [firstSupported]
  | cons a rest ih =>
    unfold firstSupported
    by_cases h : doWeAcceptAtom c a = true
    · rw [if_pos h]
      have hacc := (doWeAcceptAtom_iff c a).1 h
      constructor
      · intro h0
        obtain ⟨i, hi⟩ := hacc
        exact absurd (h0 ▸ hi).symm (hne i)
      · intro hall
        exact absurd hacc (hall a (List.mem_cons_self _ _))
    · rw [if_neg h, ih]
      have ha : ¬ Accepted c a := fun hacc => h ((doWeAcceptAtom_iff c a).2 hacc)
      simp [ha]

/-- C9 (type negotiation). The `proposedType` selected on an `XdndEnter` message is the first
accepted element of the advertised list in the order of the peer, whatever its rank among
the six local types: of the inline slots 2..4 when bit 0 of slot 1 is clear, of the fetched
`XdndTypeList` otherwise; and it is `None` exactly when no advertised element is accepted. -/
theorem type_negotiation_peer_order (c : Ctx) (hne : c.TypesInterned) (srv : XServer)
    (s : XDNDStateMachine) (m : ClientMessage) :
    (m.l1 &&& 0x1 = 0 →
      IsFirstAccepted c [m.l2, m.l3, m.l4] (handleXdndEnter c srv s m).proposedType ∧
      ((handleXdndEnter c srv s m).proposedType = 0 ↔
        ∀ a ∈ [m.l2, m.l3, m.l4], ¬ Accepted c a)) ∧
    (∀ ty adv, m.l1 &&& 0x1 ≠ 0 → ty ≠ 0 →
      srv.typeList m.l0 = some { actualType := ty, items := adv } →
      IsFirstAccepted c adv (handleXdndEnter c srv s m).proposedType ∧
      ((handleXdndEnter c srv s m).proposedType = 0 ↔ ∀ a ∈ adv, ¬ Accepted c a)) := by
  constructor
  · intro h
    have hp : (handleXdndEnter c srv s m).proposedType = firstSupported c [m.l2, m.l3, m.l4] := by
      simp [handleXdndEnter, h]
    rw [hp]
    exact ⟨firstSupported_spec c _, firstSupported_eq_zero_iff c hne _⟩
  · intro ty adv h hty hsrv
    have h1 : m.l1 % 2 = 1 := by
      have := Nat.and_one_is_mod m.l1
      omega
    have hp : (handleXdndEnter c srv s m).proposedType = firstSupported c adv := by
      simp [handleXdndEnter, h1, hsrv, getSupportedType, hty]
    rw [hp]
    exact ⟨firstSupported_spec c _, firstSupported_eq_zero_iff c hne _⟩

/-- C9, at a concrete input: the peer advertises `text/plain` (the last local type) before
`text/uri-list` (the first local type); `text/plain` is selected. -/
theorem type_negotiation_peer_order_witness :
    (exampleCtx 101).TypesInterned ∧
    IsFirstAccepted (exampleCtx 101) [26, 21, 0]
      (handleXdndEnter (exampleCtx 101) (exampleServer none) XDNDStateMachine.zero
        { window := 101, message_type := 3, format := 32, l0 := 102, l1 := 5 <<< 24,
          l2 := 26, l3 := 21, l4 := 0 }).proposedType ∧
    (handleXdndEnter (exampleCtx 101) (exampleServer none) XDNDStateMachine.zero
        { window := 101, message_type := 3, format := 32, l0 := 102, l1 := 5 <<< 24,
          l2 := 26, l3 := 21, l4 := 0 }).proposedType = 26 :=
  ⟨by decide,
   ((type_negotiation_peer_order (exampleCtx 101) (by decide) (exampleServer none)
      XDNDStateMachine.zero
      { window := 101, message_type := 3, format := 32, l0 := 102, l1 := 5 <<< 24,
        l2 := 26, l3 := 21, l4 := 0 }).1 (by decide)).1,
   by decide⟩

theorem cstr_append_nul (p rest : List Nat) (hnul : ∀ b ∈ p, b ≠ 0) :
    cstr (p ++ 0 :: rest) = p := by
  induction p with
  | nil => simp [cstr]
  | cons a p ih =>
    have ha : a ≠ 0 := hnul a (List.mem_cons_self _ _)
    have := ih (fun b hb => hnul b (List.mem_cons_of_mem _ hb))
    simp only [cstr] at this ⊢
    simp [List.takeWhile_cons, ha, this]

theorem cstr_of_nul_free (p : List Nat) (hnul : ∀ b ∈ p, b ≠ 0) : cstr p = p := by
  induction p with
  | nil => simp [cstr]
  | cons a p ih =>
    have ha : a ≠ 0 := hnul a (List.mem_cons_self _ _)
    have := ih (fun b hb => hnul b (List.mem_cons_of_mem _ hb))
    simp only [cstr] at this ⊢
    simp [List.takeWhile_cons, ha, this]

theorem propertyData_eq (p : List Nat) (hnul : ∀ b ∈ p, b ≠ 0) :
    propertyData p = fileScheme ++ p ++ [0xD, 0xA] := by
  have hc := cstr_of_nul_free p hnul
  have hf : strlen fileScheme = 7 := by decide
  simp only [propertyData, strlen, hc] at *
  rw [hf]
  have e1 : 7 + p.length + 3 - 3 = (fileScheme ++ p).length := by simp [fileScheme]; omega
  have e2 : 7 + p.length + 3 - 2 = (fileScheme ++ p).length + 1 := by simp [fileScheme]; omega
  have e3 : 7 + p.length + 3 - 1 = (fileScheme ++ p).length + 2 := by simp [fileScheme]; omega
  rw [e1, e2, e3]
  generalize fileScheme ++ p = q
  have s1 : (q ++ [0] ++ [0, 0]).set q.length 0xD = q ++ [0xD, 0, 0] := by
    simp [List.set_append]
  rw [s1]
  have s2 : (q ++ [0xD, 0, 0]).set (q.length + 1) 0xA = q ++ [0xD, 0xA, 0] := by
    simp [List.set_append]
  rw [s2]
  have s3 : (q ++ [0xD, 0xA, 0]).set (q.length + 2) 0 = q ++ [0xD, 0xA, 0] := by
    simp [List.set_append]
  rw [s3]
  simp [List.take_append_eq_append_take]

theorem strstrFound_of_prefix (needle rest : List Nat) :
    strstrFound (needle ++ rest) needle = true := by
  cases h : needle ++ rest with
  | nil =>
    have : needle = [] := (List.append_eq_nil.1 h).1
    simp [strstrFound, this]
  | cons b bs =>
    have hp : needle.isPrefixOf (b :: bs) = true := by
      rw [← h, List.isPrefixOf_iff_prefix]
      exact List.prefix_append _ _
    simp [strstrFound, hp]

theorem getD_append_fst (q : List Nat) (a b c : Nat) :
    (q ++ [a, b, c]).getD q.length 0 = a := by
  induction q with
  | nil => rfl
  | cons x q ih => simpa using ih

theorem getD_append_snd (q : List Nat) (a b c : Nat) :
    (q ++ [a, b, c]).getD (q.length + 1) 0 = b := by
  induction q with
  | nil => rfl
  | cons x q ih => simpa using ih

theorem set_append_fst (q : List Nat) (a b c v : Nat) :
    (q ++ [a, b, c]).set q.length v = q ++ [v, b, c] := by
  induction q with
  | nil => rfl
  | cons x q ih => simp [ih]

theorem getCopiedData_framed (p : List Nat) (hnul : ∀ b ∈ p, b ≠ 0) :
    getCopiedData (some (fileScheme ++ p ++ [0xD, 0xA])) = .ok (some p) := by
  have hcs : cstr (fileScheme ++ p ++ [0xD, 0xA] ++ [0]) = fileScheme ++ (p ++ [0xD, 0xA]) := by
    have := cstr_append_nul (fileScheme ++ p ++ [0xD, 0xA]) [] (by
      intro b hb
      simp only [List.mem_append, List.mem_cons, List.mem_singleton] at hb
      rcases hb with (hb | hb) | hb
      · revert b; decide
      · exact hnul b hb
      · rcases hb with rfl | rfl | hb
        · decide
        · decide
        · simp at hb)
    simpa using this
  have hdrop : (fileScheme ++ p ++ [0xD, 0xA] ++ [0]).drop 7 = p ++ [0xD, 0xA, 0] := by
    simp [fileScheme]
  have hlen : strlen (p ++ [0xD, 0xA, 0]) = p.length + 2 := by
    have := cstr_append_nul (p ++ [0xD, 0xA]) [] (by
      intro b hb
      simp only [List.mem_append, List.mem_cons, List.mem_singleton] at hb
      rcases hb with hb | rfl | rfl | hb
      · exact hnul b hb
      · decide
      · decide
      · simp at hb)
    have e : p ++ [0xD, 0xA, 0] = p ++ [0xD, 0xA] ++ [0] := by simp
    rw [strlen, e, this]
    simp
  have hbuf : fileScheme ++ p ++ [0xD, 0xA] ++ [0] = (fileScheme ++ p) ++ [0xD, 0xA, 0] := by simp
  have hq : (fileScheme ++ p).length = 7 + p.length := by simp [fileScheme]; omega
  have hi : 7 + (p.length + 2) - 2 = (fileScheme ++ p).length := by omega
  have hg0 : ((fileScheme ++ p) ++ [0xD, 0xA, 0]).getD (fileScheme ++ p).length 0 = 0xD :=
    getD_append_fst _ _ _ _
  have hg1 : ((fileScheme ++ p) ++ [0xD, 0xA, 0]).getD ((fileScheme ++ p).length + 1) 0 = 0xA :=
    getD_append_snd _ _ _ _
  have hset : ((fileScheme ++ p) ++ [0xD, 0xA, 0]).set (fileScheme ++ p).length 0 =
      fileScheme ++ (p ++ 0 :: [0xA, 0]) := by
    rw [set_append_fst]; simp
  have hfin : cstr ((fileScheme ++ (p ++ 0 :: [0xA, 0])).drop 7) = p := by
    have : (fileScheme ++ (p ++ 0 :: [0xA, 0])).drop 7 = p ++ 0 :: [0xA, 0] := by
      simp [fileScheme]
    rw [this]
    exact cstr_append_nul p _ hnul
  unfold getCopiedData
  simp only [hcs, strstrFound_of_prefix, if_true, hdrop, hlen, hi]
  rw [hbuf, hg0, hg1, hset]
  have hlt : ¬ (7 + (p.length + 2) < 2) := by omega
  simp only [hlt, if_false]
  simp [hfin]

/-- C5 (payload framing round trip). For every NUL-free path string `p`, `getCopiedData`
applied to exactly the bytes `sendSelectionNotify` stores (`file://`, then `p`, then
`0x0D 0x0A`) returns `p` byte for byte; `p` need not even be free of the CR LF pair. -/
theorem payload_framing_round_trip (p : List Nat) (hnul : ∀ b ∈ p, b ≠ 0) :
    propertyData p = fileScheme ++ p ++ [0xD, 0xA] ∧
    getCopiedData (some (propertyData p)) = .ok (some p) := by
  refine ⟨propertyData_eq p hnul, ?_⟩
  rw [propertyData_eq p hnul]
  exact getCopiedData_framed p hnul

/-- C5, at the path the program transfers: `/tmp/square.state`. -/
theorem payload_framing_round_trip_witness :
    (∀ b ∈ SQUARE_FILE_PATH, b ≠ 0) ∧
    propertyData SQUARE_FILE_PATH = fileScheme ++ SQUARE_FILE_PATH ++ [0xD, 0xA] ∧
    getCopiedData (some (propertyData SQUARE_FILE_PATH)) = .ok (some SQUARE_FILE_PATH) :=
  ⟨by decide, payload_framing_round_trip SQUARE_FILE_PATH (by decide)⟩

theorem distinct_ne (c : Ctx) (hd : c.MessageAtomsDistinct) :
    c.XdndEnter ≠ c.XdndPosition ∧ c.XdndEnter ≠ c.XdndLeave ∧ c.XdndEnter ≠ c.XdndStatus ∧
    c.XdndEnter ≠ c.XdndDrop ∧ c.XdndEnter ≠ c.XdndFinished ∧ c.XdndEnter ≠ c.WM_PROTOCOLS ∧
    c.XdndPosition ≠ c.XdndEnter ∧ c.XdndPosition ≠ c.XdndLeave ∧ c.XdndPosition ≠ c.XdndStatus ∧
    c.XdndPosition ≠ c.XdndDrop ∧ c.XdndPosition ≠ c.XdndFinished ∧
    c.XdndPosition ≠ c.WM_PROTOCOLS ∧ c.XdndLeave ≠ c.XdndEnter ∧ c.XdndLeave ≠ c.XdndPosition ∧
    c.XdndLeave ≠ c.XdndStatus ∧ c.XdndLeave ≠ c.XdndDrop ∧ c.XdndLeave ≠ c.XdndFinished ∧
    c.XdndLeave ≠ c.WM_PROTOCOLS ∧ c.XdndStatus ≠ c.XdndEnter ∧ c.XdndStatus ≠ c.XdndPosition ∧
    c.XdndStatus ≠ c.XdndLeave ∧ c.XdndStatus ≠ c.XdndDrop ∧ c.XdndStatus ≠ c.XdndFinished ∧
    c.XdndStatus ≠ c.WM_PROTOCOLS ∧ c.XdndDrop ≠ c.XdndEnter ∧ c.XdndDrop ≠ c.XdndPosition ∧
    c.XdndDrop ≠ c.XdndLeave ∧ c.XdndDrop ≠ c.XdndStatus ∧ c.XdndDrop ≠ c.XdndFinished ∧
    c.XdndDrop ≠ c.WM_PROTOCOLS ∧ c.XdndFinished ≠ c.XdndEnter ∧
    c.XdndFinished ≠ c.XdndPosition ∧ c.XdndFinished ≠ c.XdndLeave ∧
    c.XdndFinished ≠ c.XdndStatus ∧ c.XdndFinished ≠ c.XdndDrop ∧
    c.XdndFinished ≠ c.WM_PROTOCOLS ∧ c.WM_PROTOCOLS ≠ c.XdndEnter ∧
    c.WM_PROTOCOLS ≠ c.XdndPosition ∧ c.WM_PROTOCOLS ≠ c.XdndLeave ∧
    c.WM_PROTOCOLS ≠ c.XdndStatus ∧ c.WM_PROTOCOLS ≠ c.XdndDrop ∧ c.WM_PROTOCOLS ≠ c.XdndFinished := by
  simp only [Ctx.MessageAtomsDistinct, List.nodup_cons, List.mem_cons, List.mem_singleton,
    not_or, List.not_mem_nil, not_false_eq_true, List.nodup_nil, and_true] at hd
  obtain ⟨⟨h1, h2, h3, h4, h5, h6⟩, ⟨h7, h8, h9, h10, h11⟩, ⟨h12, h13, h14, h15⟩,
    ⟨h16, h17, h18⟩, ⟨h19, h20⟩, h21⟩ := hd
  refine ⟨?_, ?_, ?_, ?_, ?_, ?_, ?_, ?_, ?_, ?_, ?_, ?_, ?_, ?_, ?_, ?_, ?_, ?_, ?_, ?_, ?_,
    ?_, ?_, ?_, ?_, ?_, ?_, ?_, ?_, ?_, ?_, ?_, ?_, ?_, ?_, ?_, ?_, ?_, ?_, ?_, ?_, ?_⟩ <;>
  first
    | assumption
    | (apply Ne.symm; assumption)

/-- C8 (drop acceptance). In a target session with the exchange started, an `XdndDrop`
message is accepted exactly when a position was received before and its sender is the
recorded peer: then `xdndDropReceived` is set, `xdndDropTimestamp` is slot 2, and one
`XConvertSelection` for `proposedType` with that timestamp is issued; otherwise the state
is unchanged and nothing is issued. -/
theorem drop_accepted_iff_position_and_sender (c : Ctx) (hd : c.MessageAtomsDistinct)
    (srv : XServer) (p : Peer) (m : ClientMessage)
    (hstarted : p.xdndState.xdndExchangeStarted = true)
    (htarget : p.xdndState.amISource = false)
    (hty : m.message_type = c.XdndDrop) :
    ((p.xdndState.xdndPositionReceived = true ∧ m.l0 = p.xdndState.otherWindow) →
      step c srv p (.clientMessage m) = .ok
        ({ p with xdndState := { p.xdndState with
              xdndDropReceived := true, xdndDropTimestamp := m.l2 } },
         [Output.convertSelection c.XdndSelection p.xdndState.proposedType c.XDND_DATA c.wind
            m.l2])) ∧
    (¬ (p.xdndState.xdndPositionReceived = true ∧ m.l0 = p.xdndState.otherWindow) →
      step c srv p (.clientMessage m) = .ok (p, [])) := by
  have hne := distinct_ne c hd
  constructor
  · rintro ⟨hpos, hsender⟩
    simp [step, handleClientMessage, handleTargetMessage, handleXdndPosition, handleXdndLeave,
      handleXdndDrop, hstarted, htarget, hty, hne, hpos, hsender]
  · intro hno
    by_cases hpos : p.xdndState.xdndPositionReceived = true
    · have hsender : ¬ m.l0 = p.xdndState.otherWindow := fun h => hno ⟨hpos, h⟩
      simp [step, handleClientMessage, handleTargetMessage, handleXdndPosition, handleXdndLeave,
        handleXdndDrop, hstarted, htarget, hty, hne, hpos, hsender]
    · simp [step, handleClientMessage, handleTargetMessage, handleXdndPosition, handleXdndLeave,
        handleXdndDrop, hstarted, htarget, hty, hne, hpos]

/-- C8, at a concrete input: the tracking target accepts the `XdndDrop` of its peer `101`. -/
theorem drop_accepted_iff_position_and_sender_witness :
    (exampleCtx 102).MessageAtomsDistinct ∧
    step (exampleCtx 102) (exampleServer none) exampleTargetTracking
      (.clientMessage { exampleMessage 102 8 101 with l2 := 777 }) = .ok
        ({ exampleTargetTracking with xdndState := { exampleTargetTracking.xdndState with
              xdndDropReceived := true, xdndDropTimestamp := 777 } },
         [Output.convertSelection 9 21 10 102 777]) :=
  ⟨by decide,
   (drop_accepted_iff_position_and_sender (exampleCtx 102) (by decide) (exampleServer none)
      exampleTargetTracking { exampleMessage 102 8 101 with l2 := 777 } rfl rfl rfl).1
      ⟨rfl, rfl⟩⟩

/-- C2, refuted as stated. With the exchange started and a sender (`999`) that is not the
recorded peer, the state changes in four cases: a source handles `XdndFinished` (reset,
square hidden) and `XdndStatus` (`xdndStatusReceived` set); a target handles `XdndLeave`
(reset) and its first `XdndPosition` (state updated, `XdndStatus` emitted). -/
theorem sender_mismatch_counterexample :
    (exampleCtx 101).MessageAtomsDistinct ∧
    exampleSource.xdndState.xdndExchangeStarted = true ∧
    exampleTarget.xdndState.xdndExchangeStarted = true ∧
    999 ≠ exampleSource.xdndState.otherWindow ∧
    999 ≠ exampleTarget.xdndState.otherWindow ∧
    step (exampleCtx 101) (exampleServer none) exampleSource
      (.clientMessage (exampleMessage 101 12 999)) ≠ .ok (exampleSource, []) ∧
    step (exampleCtx 101) (exampleServer none) exampleSource
      (.clientMessage { exampleMessage 101 7 999 with l1 := 1 }) ≠ .ok (exampleSource, []) ∧
    step (exampleCtx 102) (exampleServer none) exampleTarget
      (.clientMessage (exampleMessage 102 6 999)) ≠ .ok (exampleTarget, []) ∧
    step (exampleCtx 102) (exampleServer none) exampleTarget
      (.clientMessage { exampleMessage 102 4 999 with l4 := 5 }) = .ok
        ({ exampleTarget with xdndState := { exampleTarget.xdndState with
              xdndPositionReceived := true, xdndStatusSent := true, proposedAction := 5 } },
         [Output.sendEvent 101 { exampleMessage 101 7 102 with l1 := 1, l4 := 5 }]) := by
  decide

/-- C2, amended. With the exchange started, a protocol message (`XdndPosition`, `XdndLeave`,
`XdndStatus`, `XdndDrop`, `XdndFinished`) whose slot 0 differs from `otherWindow` leaves the
state unchanged and emits nothing, provided it is not one of the four messages the code
handles without comparing the sender: `XdndStatus` or `XdndFinished` at a source,
`XdndLeave` or the first `XdndPosition` at a target. -/
theorem sender_mismatch_ignored (c : Ctx) (hd : c.MessageAtomsDistinct) (srv : XServer)
    (p : Peer) (m : ClientMessage)
    (hstarted : p.xdndState.xdndExchangeStarted = true)
    (hty : m.message_type = c.XdndPosition ∨ m.message_type = c.XdndLeave ∨
      m.message_type = c.XdndStatus ∨ m.message_type = c.XdndDrop ∨
      m.message_type = c.XdndFinished)
    (hsender : m.l0 ≠ p.xdndState.otherWindow)
    (hsource : p.xdndState.amISource = true →
      m.message_type ≠ c.XdndStatus ∧ m.message_type ≠ c.XdndFinished)
    (htarget : p.xdndState.amISource = false →
      m.message_type ≠ c.XdndLeave ∧
      (m.message_type = c.XdndPosition → p.xdndState.xdndPositionReceived = true)) :
    step c srv p (.clientMessage m) = .ok (p, []) := by
  have hne := distinct_ne c hd
  cases hsrc : p.xdndState.amISource with
  | true =>
    obtain ⟨h1, h2⟩ := hsource hsrc
    rcases hty with h | h | h | h | h <;>
      simp [step, handleClientMessage, handleSourceMessage, hstarted, hsrc, h, hne] at h1 h2 ⊢
  | false =>
    obtain ⟨h1, h2⟩ := htarget hsrc
    rcases hty with h | h | h | h | h
    · have hpos := h2 h
      simp [step, handleClientMessage, handleTargetMessage, handleXdndPosition, hstarted, hsrc,
        h, hne, hpos, hsender]
    · exact absurd h h1
    · simp [step, handleClientMessage, handleTargetMessage, handleXdndPosition, handleXdndLeave,
        handleXdndDrop, hstarted, hsrc, h, hne]
    · simp [step, handleClientMessage, handleTargetMessage, handleXdndPosition, handleXdndLeave,
        handleXdndDrop, hstarted, hsrc, h, hne, hsender]
    · simp [step, handleClientMessage, handleTargetMessage, handleXdndPosition, handleXdndLeave,
        handleXdndDrop, hstarted, hsrc, h, hne]

/-- C2 amended, at a concrete input: a tracking target ignores the `XdndDrop` of window `999`. -/
theorem sender_mismatch_ignored_witness :
    (exampleCtx 102).MessageAtomsDistinct ∧
    step (exampleCtx 102) (exampleServer none) exampleTargetTracking
      (.clientMessage (exampleMessage 102 8 999)) = .ok (exampleTargetTracking, []) :=
  ⟨by decide,
   sender_mismatch_ignored (exampleCtx 102) (by decide) (exampleServer none)
     exampleTargetTracking (exampleMessage 102 8 999) rfl
     (Or.inr (Or.inr (Or.inr (Or.inl rfl)))) (by decide) (by decide) (by decide)⟩

theorem buttonRelease_idle (c : Ctx) (srv : XServer) (p : Peer)
    (hidle : p.xdndState = XDNDStateMachine.zero) :
    ∃ q, step c srv p .buttonRelease = .ok (q, []) ∧ q.xdndState = XDNDStateMachine.zero ∧
      q.continueEventLoop = p.continueEventLoop := by
  by_cases hsel : p.square.selected = true
  · exact ⟨{ p with square := { p.square with selected := false } },
      by simp [step, handleButtonRelease, hidle, XDNDStateMachine.zero, hsel], hidle, rfl⟩
  · exact ⟨p, by simp [step, handleButtonRelease, hidle, XDNDStateMachine.zero, hsel], hidle, rfl⟩

theorem buttonReleases_idle (c : Ctx) (srvs : List XServer) (p : Peer)
    (hidle : p.xdndState = XDNDStateMachine.zero) (hrun : p.continueEventLoop = true) :
    (runLoop c p (srvs.map fun srv => (XEvent.buttonRelease, srv))).length = srvs.length ∧
    ∀ q ∈ runLoop c p (srvs.map fun srv => (XEvent.buttonRelease, srv)),
      q.1.xdndState = XDNDStateMachine.zero ∧ q.2 = [] := by
  induction srvs generalizing p with
  | nil => simp [runLoop]
  | cons srv rest ih =>
    obtain ⟨q, hq, hz, hc⟩ := buttonRelease_idle c srv p hidle
    obtain ⟨hlen, hall⟩ := ih q hz (hc.trans hrun)
    simp only [List.map_cons, runLoop, hrun, if_true, hq, List.length_cons, hlen, true_and]
    intro r hr
    rcases List.mem_cons.1 hr with rfl | hr
    · exact ⟨hz, rfl⟩
    · exact hall r hr

/-- C6 (rejection). A source with an active exchange that handles an `XdndStatus` whose
accept bit (bit 0 of slot 1) is clear emits exactly one `XdndLeave`, addressed to the
recorded peer, and wipes the session to the idle value; every button release handled
afterwards (any number of them) emits nothing and leaves the session idle. -/
theorem rejection_abandons_and_never_drops (c : Ctx) (hd : c.MessageAtomsDistinct)
    (srv : XServer) (p : Peer) (m : ClientMessage) (srvs : List XServer)
    (hstarted : p.xdndState.xdndExchangeStarted = true)
    (hsource : p.xdndState.amISource = true)
    (hrun : p.continueEventLoop = true)
    (hty : m.message_type = c.XdndStatus)
    (hrej : m.l1 &&& 0x1 = 0) :
    step c srv p (.clientMessage m) = .ok
      ({ p with xdndState := XDNDStateMachine.zero },
       [Output.sendEvent p.xdndState.otherWindow
          { window := p.xdndState.otherWindow, message_type := c.XdndLeave, format := 32,
            l0 := c.wind, l1 := 0, l2 := 0, l3 := 0, l4 := 0 }]) ∧
    (runLoop c { p with xdndState := XDNDStateMachine.zero }
      (srvs.map fun srv => (XEvent.buttonRelease, srv))).length = srvs.length ∧
    ∀ q ∈ runLoop c { p with xdndState := XDNDStateMachine.zero }
        (srvs.map fun srv => (XEvent.buttonRelease, srv)),
      q.1.xdndState = XDNDStateMachine.zero ∧ q.2 = [] := by
  have hne := distinct_ne c hd
  have h1 : m.l1 % 2 = 0 := by
    have := Nat.and_one_is_mod m.l1
    omega
  refine ⟨?_, buttonReleases_idle c srvs _ rfl hrun⟩
  simp [step, handleClientMessage, handleSourceMessage, sendXdndLeave, hstarted, hsource, hty,
    hne, h1]

/-- C6, at a concrete input: the peer `102` answers the source with the accept bit clear,
and three button releases follow. -/
theorem rejection_abandons_and_never_drops_witness :
    (exampleCtx 101).MessageAtomsDistinct ∧
    step (exampleCtx 101) (exampleServer none) exampleSource
      (.clientMessage (exampleMessage 101 7 102)) = .ok
      ({ exampleSource with xdndState := XDNDStateMachine.zero },
       [Output.sendEvent 102 (exampleMessage 102 6 101)]) ∧
    (runLoop (exampleCtx 101) { exampleSource with xdndState := XDNDStateMachine.zero }
      ((List.replicate 3 (exampleServer none)).map
        fun srv => (XEvent.buttonRelease, srv))).length = 3 :=
  ⟨by decide,
   (rejection_abandons_and_never_drops (exampleCtx 101) (by decide) (exampleServer none)
      exampleSource (exampleMessage 101 7 102) (List.replicate 3 (exampleServer none))
      rfl rfl rfl rfl (by decide)).1,
   (rejection_abandons_and_never_drops (exampleCtx 101) (by decide) (exampleServer none)
      exampleSource (exampleMessage 101 7 102) (List.replicate 3 (exampleServer none))
      rfl rfl rfl rfl (by decide)).2.1⟩

theorem handleXdndEnter_eq (c : Ctx) (srv : XServer) (s : XDNDStateMachine) (m : ClientMessage) :
    handleXdndEnter c srv s m = { s with
      xdndExchangeStarted := true, amISource := false, otherWindow := m.l0,
      proposedType := (handleXdndEnter c srv s m).proposedType } := by
  unfold handleXdndEnter
  split <;> rfl

theorem step_enter_idle (c : Ctx) (hd : c.MessageAtomsDistinct) (srv : XServer) (p : Peer)
    (m : ClientMessage) (hidle : p.xdndState = XDNDStateMachine.zero)
    (hty : m.message_type = c.XdndEnter) :
    step c srv p (.clientMessage m) = .ok
      ({ p with xdndState := { XDNDStateMachine.zero with
            xdndExchangeStarted := true, otherWindow := m.l0,
            proposedType := (handleXdndEnter c srv XDNDStateMachine.zero m).proposedType } },
       []) := by
  have hne := distinct_ne c hd
  have h := handleXdndEnter_eq c srv XDNDStateMachine.zero m
  have hwm : (m.message_type == c.WM_PROTOCOLS && m.l0 == c.WM_DELETE_WINDOW) = false := by
    simp [hty, hne]
  have hst : (!p.xdndState.xdndExchangeStarted) = true := by
    simp [hidle, XDNDStateMachine.zero]
  have hen : (m.message_type == c.XdndEnter) = true := by simp [hty]
  generalize (handleXdndEnter c srv XDNDStateMachine.zero m).proposedType = t at h
  simp only [step, handleClientMessage, hwm, hst, hen, if_true, Bool.false_eq_true, if_false,
    hidle, h]
  rfl

theorem step_first_position (c : Ctx) (hd : c.MessageAtomsDistinct) (srv : XServer) (p : Peer)
    (m : ClientMessage) (w t : Nat)
    (hs : p.xdndState = { XDNDStateMachine.zero with
      xdndExchangeStarted := true, otherWindow := w, proposedType := t })
    (hty : m.message_type = c.XdndPosition) :
    step c srv p (.clientMessage m) = .ok
      ({ p with xdndState := { XDNDStateMachine.zero with
            xdndExchangeStarted := true, otherWindow := w, proposedType := t,
            xdndPositionReceived := true, xdndStatusSent := true,
            p_rootX := toInt (asLong m.l2 >>> 16),
            p_rootY := toInt (Int.land (asLong m.l2) 0xFFFF),
            proposedAction := m.l4, xdndLastPositionTimestamp := m.l3 } },
       [Output.sendEvent w
          { window := w, message_type := c.XdndStatus, format := 32, l0 := c.wind,
            l1 := 1, l2 := 0, l3 := 0, l4 := m.l4 }]) := by
  have hne := distinct_ne c hd
  simp [step, handleClientMessage, handleTargetMessage, handleXdndPosition, handleXdndLeave,
    handleXdndDrop, sendXdndStatus, hs, hty, hne, XDNDStateMachine.zero]

/-- C10, refuted as stated. An idle target (own window `102`) handles an `XdndEnter` of
window `101` whose three inline types `31, 32, None` are all unaccepted: the session is not
reset but started with `proposedType = None`, and the `XdndPosition` that follows is
answered by an `XdndStatus` with the accept bit set. -/
theorem negotiation_failure_counterexample :
    firstSupported (exampleCtx 102) [31, 32, 0] = 0 ∧
    step (exampleCtx 102) (exampleServer none) (initialPeer 1)
      (.clientMessage { exampleMessage 102 3 101 with l1 := 5 <<< 24, l2 := 31, l3 := 32 }) = .ok
      ({ initialPeer 1 with xdndState := { XDNDStateMachine.zero with
            xdndExchangeStarted := true, otherWindow := 101 } }, []) ∧
    ({ XDNDStateMachine.zero with xdndExchangeStarted := true, otherWindow := 101 } :
      XDNDStateMachine) ≠ XDNDStateMachine.zero ∧
    step (exampleCtx 102) (exampleServer none)
      { initialPeer 1 with xdndState := { XDNDStateMachine.zero with
            xdndExchangeStarted := true, otherWindow := 101 } }
      (.clientMessage { exampleMessage 102 4 101 with l4 := 5 }) = .ok
      ({ initialPeer 1 with xdndState := { XDNDStateMachine.zero with
            xdndExchangeStarted := true, otherWindow := 101, xdndPositionReceived := true,
            xdndStatusSent := true, proposedAction := 5 } },
       [Output.sendEvent 101 { exampleMessage 101 7 102 with l1 := 1, l4 := 5 }]) := by
  decide

/-- C10, amended. When the type selection of an `XdndEnter` received while idle yields
`None`, the session is not reset: the exchange is started in the target role with the
sender as peer and `proposedType = None`, and a following `XdndPosition` is answered by
exactly one `XdndStatus` to that peer with the accept bit set. -/
theorem negotiation_failure_keeps_session (c : Ctx) (hd : c.MessageAtomsDistinct)
    (srv srv1 : XServer) (p : Peer) (enter pos : ClientMessage)
    (hidle : p.xdndState = XDNDStateMachine.zero)
    (henter : enter.message_type = c.XdndEnter)
    (hnone : (handleXdndEnter c srv XDNDStateMachine.zero enter).proposedType = 0)
    (hpos : pos.message_type = c.XdndPosition) :
    step c srv p (.clientMessage enter) = .ok
      ({ p with xdndState := { XDNDStateMachine.zero with
            xdndExchangeStarted := true, otherWindow := enter.l0 } }, []) ∧
    ∃ q, step c srv1
      { p with xdndState := { XDNDStateMachine.zero with
            xdndExchangeStarted := true, otherWindow := enter.l0 } }
      (.clientMessage pos) = .ok
      (q, [Output.sendEvent enter.l0
          { window := enter.l0, message_type := c.XdndStatus, format := 32, l0 := c.wind,
            l1 := 1, l2 := 0, l3 := 0, l4 := pos.l4 }]) := by
  constructor
  · rw [step_enter_idle c hd srv p enter hidle henter, hnone]
    rfl
  · exact ⟨_, step_first_position c hd srv1 _ pos enter.l0 0 rfl hpos⟩

/-- C10 amended, at a concrete input: the `XdndEnter` of window `101` with the unaccepted
inline types `31, 32, None`, followed by an `XdndPosition`. -/
theorem negotiation_failure_keeps_session_witness :
    (exampleCtx 102).MessageAtomsDistinct ∧
    step (exampleCtx 102) (exampleServer none) (initialPeer 1)
      (.clientMessage { exampleMessage 102 3 101 with l1 := 5 <<< 24, l2 := 31, l3 := 32 }) = .ok
      ({ initialPeer 1 with xdndState := { XDNDStateMachine.zero with
            xdndExchangeStarted := true, otherWindow := 101 } }, []) :=
  ⟨by decide,
   (negotiation_failure_keeps_session (exampleCtx 102) (by decide) (exampleServer none)
      (exampleServer none) (initialPeer 1)
      { exampleMessage 102 3 101 with l1 := 5 <<< 24, l2 := 31, l3 := 32 }
      { exampleMessage 102 4 101 with l4 := 5 } rfl rfl (by decide) rfl).1⟩

theorem step_later_position (c : Ctx) (hd : c.MessageAtomsDistinct) (srv : XServer) (p : Peer)
    (m : ClientMessage)
    (hstarted : p.xdndState.xdndExchangeStarted = true)
    (htarget : p.xdndState.amISource = false)
    (hsent : p.xdndState.xdndStatusSent = true)
    (hty : m.message_type = c.XdndPosition) :
    ∃ q, step c srv p (.clientMessage m) = .ok (q, []) ∧
      q.xdndState.xdndExchangeStarted = true ∧ q.xdndState.amISource = false ∧
      q.xdndState.xdndStatusSent = true ∧ q.continueEventLoop = p.continueEventLoop := by
  have hne := distinct_ne c hd
  by_cases hig : (p.xdndState.xdndPositionReceived && m.l0 != p.xdndState.otherWindow) = true
  · refine ⟨p, ?_, hstarted, htarget, hsent, rfl⟩
    simp [step, handleClientMessage, handleTargetMessage, handleXdndPosition, hstarted, htarget,
      hty, hne, hig]
  · refine ⟨{ p with xdndState := { p.xdndState with
        xdndPositionReceived := true,
        p_rootX := toInt (asLong m.l2 >>> 16),
        p_rootY := toInt (Int.land (asLong m.l2) 0xFFFF),
        proposedAction := m.l4,
        xdndLastPositionTimestamp := m.l3 } }, ?_, hstarted, htarget, hsent, rfl⟩
    simp [step, handleClientMessage, handleTargetMessage, handleXdndPosition, handleXdndLeave,
      handleXdndDrop, hstarted, htarget, hsent, hty, hne, hig]

theorem enter_idle_session (c : Ctx) (hd : c.MessageAtomsDistinct) (srv : XServer) (p : Peer)
    (m : ClientMessage) (hidle : p.xdndState = XDNDStateMachine.zero)
    (hty : m.message_type = c.XdndEnter) :
    ∃ q, step c srv p (.clientMessage m) = .ok (q, []) ∧
      q.xdndState.xdndExchangeStarted = true ∧ q.xdndState.amISource = false ∧
      q.xdndState.xdndStatusSent = false ∧ q.xdndState.xdndPositionReceived = false ∧
      q.xdndState.otherWindow = m.l0 ∧ q.continueEventLoop = p.continueEventLoop :=
  ⟨_, step_enter_idle c hd srv p m hidle hty, rfl, rfl, rfl, rfl, rfl, rfl⟩

theorem first_position_acknowledged (c : Ctx) (hd : c.MessageAtomsDistinct) (srv : XServer)
    (p : Peer) (m : ClientMessage)
    (hstarted : p.xdndState.xdndExchangeStarted = true)
    (htarget : p.xdndState.amISource = false)
    (hsent : p.xdndState.xdndStatusSent = false)
    (hrecv : p.xdndState.xdndPositionReceived = false)
    (hty : m.message_type = c.XdndPosition) :
    ∃ q, step c srv p (.clientMessage m) = .ok
        (q, [Output.sendEvent p.xdndState.otherWindow
          { window := p.xdndState.otherWindow, message_type := c.XdndStatus, format := 32,
            l0 := c.wind, l1 := 1, l2 := 0, l3 := 0, l4 := m.l4 }]) ∧
      q.xdndState.xdndExchangeStarted = true ∧ q.xdndState.amISource = false ∧
      q.xdndState.xdndStatusSent = true ∧ q.continueEventLoop = p.continueEventLoop := by
  have hne := distinct_ne c hd
  refine ⟨{ p with xdndState := { p.xdndState with
      xdndPositionReceived := true, xdndStatusSent := true,
      p_rootX := toInt (asLong m.l2 >>> 16),
      p_rootY := toInt (Int.land (asLong m.l2) 0xFFFF),
      proposedAction := m.l4,
      xdndLastPositionTimestamp := m.l3 } }, ?_, hstarted, htarget, rfl, rfl⟩
  simp [step, handleClientMessage, handleTargetMessage, handleXdndPosition, handleXdndLeave,
    handleXdndDrop, sendXdndStatus, hstarted, htarget, hsent, hrecv, hty, hne]

theorem later_positions_silent (c : Ctx) (hd : c.MessageAtomsDistinct) (srv : XServer)
    (ms : List ClientMessage) (p : Peer)
    (hstarted : p.xdndState.xdndExchangeStarted = true)
    (htarget : p.xdndState.amISource = false)
    (hsent : p.xdndState.xdndStatusSent = true)
    (hrun : p.continueEventLoop = true)
    (hty : ∀ m ∈ ms, m.message_type = c.XdndPosition) :
    (runLoop c p (ms.map fun m => (XEvent.clientMessage m, srv))).map Prod.snd =
      ms.map fun _ => [] := by
  induction ms generalizing p with
  | nil => simp [runLoop]
  | cons m rest ih =>
    obtain ⟨q, hq, h1, h2, h3, h4⟩ :=
      step_later_position c hd srv p m hstarted htarget hsent (hty m (List.mem_cons_self _ _))
    have := ih q h1 h2 h3 (h4.trans hrun) (fun x hx => hty x (List.mem_cons_of_mem _ hx))
    simp only [List.map_cons, runLoop, hrun, if_true, hq, this]

/-- C4 (one acknowledgement). An idle target handles an `XdndEnter` and then `N ≥ 1`
consecutive `XdndPosition` messages `first :: rest`: the `XdndEnter` emits nothing, the
first position emits exactly one `XdndStatus`, addressed to the sender of the `XdndEnter`,
with slot 1 equal to `1` (accept bit set) and slot 4 the action of that first position, and
each of the later `N - 1` positions emits nothing. -/
theorem one_acknowledge_for_n_positions (c : Ctx) (hd : c.MessageAtomsDistinct) (srv : XServer)
    (p : Peer) (enter first : ClientMessage) (rest : List ClientMessage)
    (hidle : p.xdndState = XDNDStateMachine.zero)
    (hrun : p.continueEventLoop = true)
    (henter : enter.message_type = c.XdndEnter)
    (hfirst : first.message_type = c.XdndPosition)
    (hrest : ∀ m ∈ rest, m.message_type = c.XdndPosition) :
    ∃ p1, step c srv p (.clientMessage enter) = .ok (p1, []) ∧
      (runLoop c p1 ((first :: rest).map fun m => (XEvent.clientMessage m, srv))).map Prod.snd =
        [Output.sendEvent enter.l0
          { window := enter.l0, message_type := c.XdndStatus, format := 32, l0 := c.wind,
            l1 := 1, l2 := 0, l3 := 0, l4 := first.l4 }] :: rest.map fun _ => [] := by
  obtain ⟨p1, hp1, hs1, ht1, hn1, hr1, hw1, hc1⟩ := enter_idle_session c hd srv p enter hidle henter
  obtain ⟨p2, hp2, hs2, ht2, hn2, hc2⟩ :=
    first_position_acknowledged c hd srv p1 first hs1 ht1 hn1 hr1 hfirst
  refine ⟨p1, hp1, ?_⟩
  have h2 := later_positions_silent c hd srv rest p2 hs2 ht2 hn2
    (hc2.trans (hc1.trans hrun)) hrest
  simp only [List.map_cons, runLoop, hc1.trans hrun, if_true, hp2, h2, hw1]

/-- C4, at a concrete input: an `XdndEnter` of window `101` and three positions. -/
theorem one_acknowledge_for_n_positions_witness :
    (exampleCtx 102).MessageAtomsDistinct ∧
    ∃ p1, step (exampleCtx 102) (exampleServer none) (initialPeer 1)
        (.clientMessage { exampleMessage 102 3 101 with l1 := 5 <<< 24, l2 := 21 }) =
          .ok (p1, []) ∧
      (runLoop (exampleCtx 102) p1
        (({ exampleMessage 102 4 101 with l4 := 5 } ::
          [{ exampleMessage 102 4 101 with l2 := 1, l4 := 6 }, exampleMessage 102 4 999]).map
            fun m => (XEvent.clientMessage m, exampleServer none))).map Prod.snd =
        [Output.sendEvent 101
          { window := 101, message_type := 7, format := 32, l0 := 102,
            l1 := 1, l2 := 0, l3 := 0, l4 := 5 }] ::
          [{ exampleMessage 102 4 101 with l2 := 1, l4 := 6 }, exampleMessage 102 4 999].map
            fun _ => [] :=
  ⟨by decide,
   one_acknowledge_for_n_positions (exampleCtx 102) (by decide) (exampleServer none)
     (initialPeer 1) { exampleMessage 102 3 101 with l1 := 5 <<< 24, l2 := 21 }
     { exampleMessage 102 4 101 with l4 := 5 }
     [{ exampleMessage 102 4 101 with l2 := 1, l4 := 6 }, exampleMessage 102 4 999]
     rfl rfl rfl rfl (by decide)⟩

theorem motionLeave_mem (c : Ctx) (s : XDNDStateMachine) (targetWindow t : Window)
    (m : ClientMessage) (hmem : Output.sendEvent t m ∈ (motionLeave c s targetWindow).2) :
    m.message_type = c.XdndLeave ∧ s.xdndExchangeStarted = true ∧ s.amISource = true ∧
      t = s.otherWindow := by
  unfold motionLeave sendXdndLeave at hmem
  split_ifs at hmem with h1 h2
  · simp only [List.mem_singleton, Output.sendEvent.injEq] at hmem
    obtain ⟨rfl, rfl⟩ := hmem
    simp only [Bool.and_eq_true] at h2
    exact ⟨rfl, h2.1, h2.2, rfl⟩
  · simp at hmem
  · simp at hmem

theorem motionLeave_started (c : Ctx) (s : XDNDStateMachine) (targetWindow : Window)
    (h : (motionLeave c s targetWindow).1.xdndExchangeStarted = true) :
    (motionLeave c s targetWindow).1 = s ∧ targetWindow = s.otherWindow ∧
      (motionLeave c s targetWindow).2 = [] := by
  unfold motionLeave at h ⊢
  split_ifs at h ⊢ with h1
  · simp [XDNDStateMachine.zero] at h
  · simp only [Bool.and_eq_true, bne_iff_ne, ne_eq, not_and, not_not] at h1
    exact ⟨rfl, h1 h, rfl⟩

theorem motionEnter_some (c : Ctx) (srv : XServer) (s s2 : XDNDStateMachine)
    (targetWindow : Window) (time : Time) (out2 : List Output)
    (h : motionEnter c srv s targetWindow time = some (s2, out2)) :
    (s.xdndExchangeStarted = true ∧ s2 = s ∧ out2 = []) ∨
    (s.xdndExchangeStarted = false ∧
      s2 = { s with xdndExchangeStarted := true, amISource := true, otherWindow := targetWindow } ∧
      out2 = [Output.setSelectionOwner c.XdndSelection c.wind time,
        Output.sendEvent targetWindow
          { window := targetWindow, message_type := c.XdndEnter, format := 32, l0 := c.wind,
            l1 := hasCorrectXdndAwareProperty (srv.xdndAware targetWindow) <<< 24,
            l2 := c.typesWeAccept 0, l3 := 0, l4 := 0 }]) := by
  unfold motionEnter sendXdndEnter at h
  cases hs : s.xdndExchangeStarted with
  | true =>
    left
    simp only [hs, Bool.not_true, Bool.false_eq_true, if_false, Option.some.injEq,
      Prod.mk.injEq] at h
    exact ⟨rfl, h.1.symm, h.2.symm⟩
  | false =>
    right
    simp only [hs, Bool.not_false, if_true] at h
    split_ifs at h
    simp only [Option.some.injEq, Prod.mk.injEq] at h
    exact ⟨rfl, h.1.symm, h.2.symm⟩

theorem motionSendPosition_mem (c : Ctx) (s : XDNDStateMachine) (targetWindow t : Window)
    (x_root y_root : Int) (time : Time) (m : ClientMessage)
    (hmem : Output.sendEvent t m ∈ motionSendPosition c s targetWindow x_root y_root time) :
    m.message_type = c.XdndPosition ∧ s.xdndExchangeStarted = true ∧ s.amISource = true ∧
      t = targetWindow := by
  unfold motionSendPosition sendXdndPosition at hmem
  split_ifs at hmem with h1 h2
  · simp only [List.mem_singleton, Output.sendEvent.injEq] at hmem
    obtain ⟨rfl, rfl⟩ := hmem
    simp only [Bool.and_eq_true] at h2
    exact ⟨rfl, h2.1, h2.2, rfl⟩
  · simp at hmem
  · simp at hmem

theorem motion_outputs (c : Ctx) (srv : XServer) (p : Peer) (x y x_root y_root : Int)
    (time : Time) (t : Window) (m : ClientMessage)
    (hmem : Output.sendEvent t m ∈ (handleMotionNotify c srv p x y x_root y_root time).2) :
    (m.message_type = c.XdndLeave ∧ p.xdndState.xdndExchangeStarted = true ∧
      p.xdndState.amISource = true ∧ t = p.xdndState.otherWindow) ∨
    ((m.message_type = c.XdndEnter ∨ m.message_type = c.XdndPosition) ∧
      (handleMotionNotify c srv p x y x_root y_root time).1.xdndState.xdndExchangeStarted = true ∧
      (handleMotionNotify c srv p x y x_root y_root time).1.xdndState.amISource = true ∧
      (handleMotionNotify c srv p x y x_root y_root time).1.xdndState.otherWindow = t) := by
  unfold handleMotionNotify at hmem ⊢
  by_cases hsel : p.square.selected = true
  swap
  · simp [hsel] at hmem
  by_cases hclick : p.clickedStillInWindow = true
  · simp [hsel, hclick] at hmem
  by_cases hT : getWindowPointerIsOver srv.tree x_root y_root 0 0 = 0
  · simp [hsel, hclick, hT] at hmem
  simp only [hsel, hclick, if_true, Bool.not_eq_true, Bool.not_eq_true', beq_iff_eq, hT,
    if_false, Bool.false_eq_true, Bool.not_false] at hmem ⊢
  generalize getWindowPointerIsOver srv.tree x_root y_root 0 0 = T at hmem ⊢
  have hL1 := motionLeave_mem c p.xdndState T t m
  have hL2 := motionLeave_started c p.xdndState T
  rcases hL : motionLeave c p.xdndState T with ⟨s1, out1⟩
  rw [hL] at hL1 hL2
  simp only [hL] at hmem ⊢
  cases hE : motionEnter c srv s1 T time with
  | none =>
    simp only [hE] at hmem ⊢
    exact Or.inl (hL1 hmem)
  | some r =>
    obtain ⟨s2, out2⟩ := r
    simp only [hE] at hmem ⊢
    simp only [List.mem_append] at hmem
    rcases hmem with (hmem | hmem) | hmem
    · exact Or.inl (hL1 hmem)
    · rcases motionEnter_some c srv s1 s2 T time out2 hE with ⟨_, _, h0⟩ | ⟨_, h2, h0⟩
      · simp [h0] at hmem
      · rw [h0] at hmem
        simp only [List.mem_cons, List.mem_singleton, Output.sendEvent.injEq, List.not_mem_nil,
          or_false, false_or, reduceCtorEq] at hmem
        obtain ⟨rfl, rfl⟩ := hmem
        right
        rw [h2]
        exact ⟨Or.inl rfl, rfl, rfl, rfl⟩
    · obtain ⟨hty, hst, hsrc, htT⟩ := motionSendPosition_mem c s2 T t x_root y_root time m hmem
      right
      refine ⟨Or.inr hty, hst, hsrc, ?_⟩
      rw [htT]
      rcases motionEnter_some c srv s1 s2 T time out2 hE with ⟨h1, h2, _⟩ | ⟨_, h2, _⟩
      · obtain ⟨h3, h4, _⟩ := hL2 h1
        simp only at h3
        rw [h2, h3, ← h4]
      · rw [h2]

theorem selectionNotify_outputs (c : Ctx) (srv : XServer) (p q : Peer) (property : Atom)
    (out : List Output) (t : Window) (m : ClientMessage)
    (h : handleSelectionNotify c srv p property = .ok (q, out))
    (hmem : Output.sendEvent t m ∈ out) :
    m.message_type = c.XdndFinished ∧ property = c.XDND_DATA ∧
      p.xdndState.xdndExchangeStarted = true ∧ p.xdndState.amISource = false ∧
      t = p.xdndState.otherWindow := by
  unfold handleSelectionNotify at h
  by_cases hp : property = c.XDND_DATA
  swap
  · simp only [bne_iff_ne, ne_eq, hp, not_false_eq_true, if_true, Except.ok.injEq,
      Prod.mk.injEq] at h
    rw [← h.2] at hmem
    simp at hmem
  simp only [bne_iff_ne, ne_eq, hp, not_true_eq_false, if_false] at h
  cases hg : getCopiedData srv.xdndData with
  | error f => simp [hg] at h
  | ok r =>
    cases r with
    | none => simp [hg] at h
    | some pathStr =>
      simp only [hg] at h
      cases hf : srv.fread pathStr with
      | none => simp [hf] at h
      | some colour =>
        simp only [hf, Except.ok.injEq, Prod.mk.injEq] at h
        rw [← h.2] at hmem
        unfold sendXdndFinished at hmem
        split_ifs at hmem with h1
        · simp only [List.mem_cons, List.mem_singleton, Output.sendEvent.injEq, reduceCtorEq,
            false_or, List.not_mem_nil, or_false] at hmem
          obtain ⟨rfl, rfl⟩ := hmem
          simp only [Bool.and_eq_true, Bool.not_eq_true'] at h1
          exact ⟨rfl, hp, h1.1, h1.2, rfl⟩
        · simp at hmem

theorem mem_sendXdndLeave (c : Ctx) (s : XDNDStateMachine) (source target t : Window)
    (m : ClientMessage) (hmem : Output.sendEvent t m ∈ sendXdndLeave c s source target) :
    m.message_type = c.XdndLeave ∧ t = target ∧ s.xdndExchangeStarted = true ∧
      s.amISource = true := by
  unfold sendXdndLeave at hmem
  by_cases h : (s.xdndExchangeStarted && s.amISource) = true
  · rw [if_pos h] at hmem
    simp only [List.mem_singleton, Output.sendEvent.injEq] at hmem
    obtain ⟨rfl, rfl⟩ := hmem
    simp only [Bool.and_eq_true] at h
    exact ⟨rfl, rfl, h.1, h.2⟩
  · rw [if_neg h] at hmem
    simp at hmem

theorem mem_sendXdndStatus (c : Ctx) (s : XDNDStateMachine) (source target t : Window)
    (action : Atom) (m : ClientMessage)
    (hmem : Output.sendEvent t m ∈ sendXdndStatus c s source target action) :
    m.message_type = c.XdndStatus ∧ t = target ∧ s.xdndExchangeStarted = true ∧
      s.amISource = false := by
  unfold sendXdndStatus at hmem
  by_cases h : (s.xdndExchangeStarted && !s.amISource) = true
  · rw [if_pos h] at hmem
    simp only [List.mem_singleton, Output.sendEvent.injEq] at hmem
    obtain ⟨rfl, rfl⟩ := hmem
    simp only [Bool.and_eq_true, Bool.not_eq_true'] at h
    exact ⟨rfl, rfl, h.1, h.2⟩
  · rw [if_neg h] at hmem
    simp at hmem

theorem sourceMessage_outputs (c : Ctx) (p : Peer) (msg : ClientMessage) (t : Window)
    (m : ClientMessage) (hmem : Output.sendEvent t m ∈ (handleSourceMessage c p msg).2) :
    m.message_type = c.XdndLeave ∧ t = p.xdndState.otherWindow ∧
      p.xdndState.xdndExchangeStarted = true ∧ p.xdndState.amISource = true := by
  unfold handleSourceMessage at hmem
  by_cases h1 : (msg.message_type == c.XdndStatus) = true
  · rw [if_pos h1] at hmem
    by_cases h2 : (msg.l1 &&& 0x1 != 1) = true
    · simp only [h2, if_true] at hmem
      exact mem_sendXdndLeave c _ _ _ t m hmem
    · simp only [h2, if_false] at hmem
      simp at hmem
  · rw [if_neg h1] at hmem
    by_cases h3 : (msg.message_type == c.XdndFinished) = true
    · rw [if_pos h3] at hmem
      simp at hmem
    · rw [if_neg h3] at hmem
      simp at hmem

theorem handleXdndPosition_some (c : Ctx) (s s1 : XDNDStateMachine) (msg : ClientMessage)
    (out1 : List Output) (h : handleXdndPosition c s msg = some (s1, out1)) :
    s1.xdndExchangeStarted = s.xdndExchangeStarted ∧ s1.amISource = s.amISource ∧
      s1.otherWindow = s.otherWindow ∧
      ∀ t m, Output.sendEvent t m ∈ out1 →
        m.message_type = c.XdndStatus ∧ t = s.otherWindow ∧ s.xdndExchangeStarted = true ∧
          s.amISource = false := by
  unfold handleXdndPosition at h
  by_cases h1 : (msg.message_type == c.XdndPosition) = true
  · rw [if_pos h1] at h
    by_cases h2 : (s.xdndPositionReceived && msg.l0 != s.otherWindow) = true
    · rw [if_pos h2] at h
      simp at h
    · rw [if_neg h2] at h
      by_cases h3 : s.xdndStatusSent = true
      · simp only [h3, Bool.not_true, Bool.false_eq_true, if_false, Option.some.injEq,
          Prod.mk.injEq] at h
        obtain ⟨rfl, rfl⟩ := h
        exact ⟨rfl, rfl, rfl, by simp⟩
      · simp only [h3, Bool.not_false, if_true, Option.some.injEq, Prod.mk.injEq,
          Bool.not_eq_true] at h
        obtain ⟨rfl, rfl⟩ := h
        refine ⟨rfl, rfl, rfl, ?_⟩
        intro t m hmem
        exact mem_sendXdndStatus c _ _ _ t _ m hmem
  · rw [if_neg h1] at h
    simp only [Option.some.injEq, Prod.mk.injEq] at h
    obtain ⟨rfl, rfl⟩ := h
    exact ⟨rfl, rfl, rfl, by simp⟩

theorem targetMessage_outputs (c : Ctx) (p : Peer) (msg : ClientMessage) (t : Window)
    (m : ClientMessage) (hmem : Output.sendEvent t m ∈ (handleTargetMessage c p msg).2) :
    m.message_type = c.XdndStatus ∧ t = p.xdndState.otherWindow ∧
      p.xdndState.xdndExchangeStarted = true ∧ p.xdndState.amISource = false := by
  unfold handleTargetMessage at hmem
  cases hP : handleXdndPosition c p.xdndState msg with
  | none => simp [hP] at hmem
  | some r =>
    obtain ⟨s1, out1⟩ := r
    simp only [hP, List.mem_append] at hmem
    rcases hmem with hmem | hmem
    · exact (handleXdndPosition_some c _ _ msg out1 hP).2.2.2 t m hmem
    · unfold handleXdndDrop at hmem
      by_cases h1 : (msg.message_type == c.XdndDrop) = true
      · rw [if_pos h1] at hmem
        by_cases h2 : (!(handleXdndLeave c s1 msg).xdndPositionReceived ||
            msg.l0 != (handleXdndLeave c s1 msg).otherWindow) = true
        · rw [if_pos h2] at hmem
          simp at hmem
        · rw [if_neg h2] at hmem
          simp at hmem
      · rw [if_neg h1] at hmem
        simp at hmem

theorem clientMessage_outputs (c : Ctx) (srv : XServer) (p : Peer) (msg : ClientMessage)
    (t : Window) (m : ClientMessage)
    (hmem : Output.sendEvent t m ∈ (handleClientMessage c srv p msg).2) :
    (m.message_type = c.XdndStatus ∧ p.xdndState.xdndExchangeStarted = true ∧
      p.xdndState.amISource = false ∧ t = p.xdndState.otherWindow) ∨
    (m.message_type = c.XdndLeave ∧ p.xdndState.xdndExchangeStarted = true ∧
      p.xdndState.amISource = true ∧ t = p.xdndState.otherWindow) := by
  unfold handleClientMessage at hmem
  by_cases h1 : (msg.message_type == c.WM_PROTOCOLS && msg.l0 == c.WM_DELETE_WINDOW) = true
  · rw [if_pos h1] at hmem
    simp at hmem
  rw [if_neg h1] at hmem
  by_cases h2 : (!p.xdndState.xdndExchangeStarted) = true
  · rw [if_pos h2] at hmem
    by_cases h3 : (msg.message_type == c.XdndEnter) = true
    · rw [if_pos h3] at hmem
      simp at hmem
    · rw [if_neg h3] at hmem
      simp at hmem
  rw [if_neg h2] at hmem
  by_cases h4 : p.xdndState.amISource = true
  · rw [if_pos h4] at hmem
    obtain ⟨h5, h6, h7, h8⟩ := sourceMessage_outputs c p msg t m hmem
    exact Or.inr ⟨h5, h7, h8, h6⟩
  · rw [if_neg h4] at hmem
    obtain ⟨h5, h6, h7, h8⟩ := targetMessage_outputs c p msg t m hmem
    exact Or.inl ⟨h5, h7, h8, h6⟩

/-- Where a client message emitted in one step comes from: `XdndFinished` and `XdndStatus`
are sent by a target to its recorded peer, `XdndLeave` and `XdndDrop` by a source to its
recorded peer, `XdndEnter` and `XdndPosition` to the peer of the session the source is in
after the step. -/
theorem step_outputs (c : Ctx) (srv : XServer) (p q : Peer) (e : XEvent) (out : List Output)
    (t : Window) (m : ClientMessage)
    (h : step c srv p e = .ok (q, out)) (hmem : Output.sendEvent t m ∈ out) :
    (m.message_type = c.XdndFinished ∧ e = .selectionNotify c.XDND_DATA ∧
      p.xdndState.xdndExchangeStarted = true ∧ p.xdndState.amISource = false ∧
      t = p.xdndState.otherWindow) ∨
    (m.message_type = c.XdndStatus ∧ p.xdndState.xdndExchangeStarted = true ∧
      p.xdndState.amISource = false ∧ t = p.xdndState.otherWindow) ∨
    ((m.message_type = c.XdndLeave ∨ m.message_type = c.XdndDrop) ∧
      p.xdndState.xdndExchangeStarted = true ∧ p.xdndState.amISource = true ∧
      t = p.xdndState.otherWindow) ∨
    ((m.message_type = c.XdndEnter ∨ m.message_type = c.XdndPosition) ∧
      q.xdndState.xdndExchangeStarted = true ∧ q.xdndState.amISource = true ∧
      q.xdndState.otherWindow = t) := by
  cases e with
  | selectionRequest req =>
    simp only [step, handleSelectionRequest, sendSelectionNotify, Except.ok.injEq] at h
    split_ifs at h <;>
    · simp only [Prod.mk.injEq] at h
      rw [← h.2] at hmem
      simp at hmem
  | selectionNotify property =>
    obtain ⟨h1, h2, h3, h4, h5⟩ := selectionNotify_outputs c srv p q property out t m h hmem
    exact Or.inl ⟨h1, by rw [h2], h3, h4, h5⟩
  | motionNotify x y x_root y_root time =>
    simp only [step, Except.ok.injEq] at h
    have := motion_outputs c srv p x y x_root y_root time t m (by rw [h]; exact hmem)
    rw [h] at this
    rcases this with ⟨h1, h2, h3, h4⟩ | h1
    · exact Or.inr (Or.inr (Or.inl ⟨Or.inl h1, h2, h3, h4⟩))
    · exact Or.inr (Or.inr (Or.inr h1))
  | keyRelease keycode =>
    simp only [step, Except.ok.injEq, Prod.mk.injEq] at h
    rw [← h.2] at hmem
    simp at hmem
  | buttonPress x y =>
    simp only [step, Except.ok.injEq, Prod.mk.injEq] at h
    rw [← h.2] at hmem
    simp at hmem
  | buttonRelease =>
    simp only [step, handleButtonRelease, sendXdndDrop, Except.ok.injEq, Prod.mk.injEq] at h
    rw [← h.2] at hmem
    split_ifs at hmem with h1 h2
    · simp only [List.mem_singleton, Output.sendEvent.injEq] at hmem
      obtain ⟨rfl, rfl⟩ := hmem
      simp only [Bool.and_eq_true] at h2
      exact Or.inr (Or.inr (Or.inl ⟨Or.inr rfl, h2.1, h2.2, rfl⟩))
    · simp at hmem
    · simp at hmem
  | expose =>
    simp only [step, Except.ok.injEq, Prod.mk.injEq] at h
    rw [← h.2] at hmem
    simp at hmem
  | enterNotify =>
    simp only [step, Except.ok.injEq, Prod.mk.injEq] at h
    rw [← h.2] at hmem
    simp at hmem
  | leaveNotify =>
    simp only [step, Except.ok.injEq, Prod.mk.injEq] at h
    rw [← h.2] at hmem
    simp at hmem
  | clientMessage msg =>
    simp only [step, Except.ok.injEq] at h
    have := clientMessage_outputs c srv p msg t m (by rw [h]; exact hmem)
    rcases this with h1 | ⟨h1, h2, h3, h4⟩
    · exact Or.inr (Or.inl h1)
    · exact Or.inr (Or.inr (Or.inl ⟨Or.inl h1, h2, h3, h4⟩))
  | other =>
    simp only [step, Except.ok.injEq, Prod.mk.injEq] at h
    rw [← h.2] at hmem
    simp at hmem

theorem motion_state (c : Ctx) (srv : XServer) (p : Peer) (x y x_root y_root : Int)
    (time : Time) :
    (handleMotionNotify c srv p x y x_root y_root time).1.xdndState = p.xdndState ∨
    (handleMotionNotify c srv p x y x_root y_root time).1.xdndState = XDNDStateMachine.zero ∨
    (handleMotionNotify c srv p x y x_root y_root time).1.xdndState.amISource = true := by
  unfold handleMotionNotify
  by_cases hsel : p.square.selected = true
  swap
  · simp [hsel]
  by_cases hclick : p.clickedStillInWindow = true
  · simp [hsel, hclick]
  by_cases hT : getWindowPointerIsOver srv.tree x_root y_root 0 0 = 0
  · simp [hsel, hclick, hT]
  simp only [hsel, hclick, if_true, Bool.not_eq_true, Bool.not_eq_true', beq_iff_eq, hT,
    if_false, Bool.false_eq_true, Bool.not_false]
  generalize getWindowPointerIsOver srv.tree x_root y_root 0 0 = T
  have hL : (motionLeave c p.xdndState T).1 = p.xdndState ∨
      (motionLeave c p.xdndState T).1 = XDNDStateMachine.zero := by
    unfold motionLeave
    by_cases h : (p.xdndState.xdndExchangeStarted && T != p.xdndState.otherWindow) = true
    · rw [if_pos h]; exact Or.inr rfl
    · rw [if_neg h]; exact Or.inl rfl
  rcases hL' : motionLeave c p.xdndState T with ⟨s1, out1⟩
  rw [hL'] at hL
  simp only at hL ⊢
  cases hE : motionEnter c srv s1 T time with
  | none =>
    simp only
    rcases hL with h | h
    · exact Or.inl h
    · exact Or.inr (Or.inl h)
  | some r =>
    obtain ⟨s2, out2⟩ := r
    simp only
    rcases motionEnter_some c srv s1 s2 T time out2 hE with ⟨_, h2, _⟩ | ⟨_, h2, _⟩
    · rw [h2]
      rcases hL with h | h
      · exact Or.inl h
      · exact Or.inr (Or.inl h)
    · rw [h2]
      exact Or.inr (Or.inr rfl)

theorem clientMessage_state (c : Ctx) (srv : XServer) (p : Peer) (msg : ClientMessage)
    (hq : (handleClientMessage c srv p msg).1.xdndState.xdndExchangeStarted = true)
    (hqt : (handleClientMessage c srv p msg).1.xdndState.amISource = false) :
    (p.xdndState.xdndExchangeStarted = true ∧ p.xdndState.amISource = false) ∨
    msg.message_type = c.XdndEnter := by
  unfold handleClientMessage at hq hqt
  by_cases h1 : (msg.message_type == c.WM_PROTOCOLS && msg.l0 == c.WM_DELETE_WINDOW) = true
  · rw [if_pos h1] at hq hqt
    exact Or.inl ⟨hq, hqt⟩
  rw [if_neg h1] at hq hqt
  by_cases h2 : (!p.xdndState.xdndExchangeStarted) = true
  · rw [if_pos h2] at hq hqt
    by_cases h3 : (msg.message_type == c.XdndEnter) = true
    · exact Or.inr (by simpa using h3)
    · rw [if_neg h3] at hq hqt
      exact Or.inl ⟨hq, hqt⟩
  rw [if_neg h2] at hq hqt
  simp only [Bool.not_eq_true', Bool.not_eq_false] at h2
  by_cases h4 : p.xdndState.amISource = true
  · rw [if_pos h4] at hq hqt
    exfalso
    unfold handleSourceMessage at hq hqt
    by_cases h5 : (msg.message_type == c.XdndStatus) = true
    · rw [if_pos h5] at hq hqt
      by_cases h6 : (msg.l1 &&& 0x1 != 1) = true
      · simp only [h6, if_true] at hq
        simp [XDNDStateMachine.zero] at hq
      · simp only [h6, if_false] at hqt
        simp [h4] at hqt
    · rw [if_neg h5] at hq hqt
      by_cases h7 : (msg.message_type == c.XdndFinished) = true
      · rw [if_pos h7] at hq
        simp [XDNDStateMachine.zero] at hq
      · rw [if_neg h7] at hqt
        simp [h4] at hqt
  · exact Or.inl ⟨h2, by simpa using h4⟩

theorem target_session_origin (c : Ctx) (srv : XServer) (p q : Peer) (e : XEvent)
    (out : List Output) (h : step c srv p e = .ok (q, out))
    (hq : q.xdndState.xdndExchangeStarted = true) (hqt : q.xdndState.amISource = false) :
    (p.xdndState.xdndExchangeStarted = true ∧ p.xdndState.amISource = false) ∨
    ∃ msg, e = .clientMessage msg ∧ msg.message_type = c.XdndEnter := by
  cases e with
  | selectionRequest req =>
    simp only [step, handleSelectionRequest, Except.ok.injEq] at h
    split_ifs at h <;>
    · simp only [Prod.mk.injEq] at h
      rw [← h.1] at hq hqt
      exact Or.inl ⟨hq, hqt⟩
  | selectionNotify property =>
    left
    simp only [step] at h
    unfold handleSelectionNotify at h
    by_cases hp : (property != c.XDND_DATA) = true
    · rw [if_pos hp] at h
      simp only [Except.ok.injEq, Prod.mk.injEq] at h
      rw [← h.1] at hq hqt
      exact ⟨hq, hqt⟩
    · rw [if_neg hp] at h
      exfalso
      cases hg : getCopiedData srv.xdndData with
      | error f => simp [hg] at h
      | ok r =>
        cases r with
        | none => simp [hg] at h
        | some pathStr =>
          simp only [hg] at h
          cases hf : srv.fread pathStr with
          | none => simp [hf] at h
          | some colour =>
            simp only [hf, Except.ok.injEq, Prod.mk.injEq] at h
            rw [← h.1] at hq
            simp [XDNDStateMachine.zero] at hq
  | motionNotify x y x_root y_root time =>
    left
    simp only [step, Except.ok.injEq] at h
    have := motion_state c srv p x y x_root y_root time
    rw [h] at this
    rcases this with h1 | h1 | h1
    · simp only at h1
      rw [h1] at hq hqt
      exact ⟨hq, hqt⟩
    · simp only at h1
      rw [h1] at hq
      simp [XDNDStateMachine.zero] at hq
    · simp only at h1
      rw [h1] at hqt
      simp at hqt
  | keyRelease keycode =>
    left
    simp only [step, handleKeyRelease, Except.ok.injEq, Prod.mk.injEq] at h
    rw [← h.1] at hq hqt
    split_ifs at hq hqt <;> exact ⟨hq, hqt⟩
  | buttonPress x y =>
    left
    simp only [step, handleButtonPress, Except.ok.injEq, Prod.mk.injEq] at h
    rw [← h.1] at hq hqt
    split_ifs at hq hqt <;> exact ⟨hq, hqt⟩
  | buttonRelease =>
    left
    simp only [step, handleButtonRelease, Except.ok.injEq, Prod.mk.injEq] at h
    rw [← h.1] at hq hqt
    split_ifs at hq hqt <;> exact ⟨hq, hqt⟩
  | expose =>
    left
    simp only [step, Except.ok.injEq, Prod.mk.injEq] at h
    rw [← h.1] at hq hqt
    exact ⟨hq, hqt⟩
  | enterNotify =>
    left
    simp only [step, Except.ok.injEq, Prod.mk.injEq] at h
    rw [← h.1] at hq hqt
    split_ifs at hq hqt <;> exact ⟨hq, hqt⟩
  | leaveNotify =>
    left
    simp only [step, Except.ok.injEq, Prod.mk.injEq] at h
    rw [← h.1] at hq hqt
    split_ifs at hq hqt <;> exact ⟨hq, hqt⟩
  | clientMessage msg =>
    simp only [step, Except.ok.injEq] at h
    have := clientMessage_state c srv p msg (by rw [h]; exact hq) (by rw [h]; exact hqt)
    rcases this with h1 | h1
    · exact Or.inl h1
    · exact Or.inr ⟨msg, rfl, h1⟩
  | other =>
    left
    simp only [step, Except.ok.injEq, Prod.mk.injEq] at h
    rw [← h.1] at hq hqt
    exact ⟨hq, hqt⟩

theorem runLoop_cons_ok (c : Ctx) (p : Peer) (e : XEvent) (srv : XServer)
    (rest : List (XEvent × XServer)) (k : Nat) (r : Peer × List Output)
    (h : (runLoop c p ((e, srv) :: rest))[k]? = some r) :
    ∃ r0, step c srv p e = .ok r0 ∧ runLoop c p ((e, srv) :: rest) = r0 :: runLoop c r0.1 rest := by
  by_cases hrun : p.continueEventLoop = true
  · cases hs : step c srv p e with
    | error f => simp [runLoop, hrun, hs] at h
    | ok r0 =>
      obtain ⟨p1, out⟩ := r0
      exact ⟨(p1, out), rfl, by simp [runLoop, hrun, hs]⟩
  · simp [runLoop, hrun] at h

/-- The `k`-th entry of `runLoop` is the result of `step` on the `k`-th event, taken from
the state before it: the initial state for `k = 0`, the state after step `k - 1` otherwise. -/
theorem runLoop_step (c : Ctx) (evs : List (XEvent × XServer)) (p : Peer) (k : Nat)
    (r : Peer × List Output) (h : (runLoop c p evs)[k]? = some r) :
    ∃ pre e srv, (p :: (runLoop c p evs).map Prod.fst)[k]? = some pre ∧
      evs[k]? = some (e, srv) ∧ step c srv pre e = .ok r := by
  induction evs generalizing p k with
  | nil => simp [runLoop] at h
  | cons ev rest ih =>
    obtain ⟨e, srv⟩ := ev
    obtain ⟨r0, hs, hrl⟩ := runLoop_cons_ok c p e srv rest k r h
    rw [hrl] at h ⊢
    cases k with
    | zero =>
      simp only [List.getElem?_cons_zero, Option.some.injEq] at h
      exact ⟨p, e, srv, by simp, by simp, by rw [hs, h]⟩
    | succ k =>
      simp only [List.getElem?_cons_succ] at h
      obtain ⟨pre, e1, srv1, h1, h2, h3⟩ := ih r0.1 k h
      exact ⟨pre, e1, srv1, by simpa using h1, by simpa using h2, h3⟩

theorem target_session_needs_enter (c : Ctx) (evs : List (XEvent × XServer)) (p : Peer)
    (k : Nat) (pre : Peer)
    (hpre : (p :: (runLoop c p evs).map Prod.fst)[k]? = some pre)
    (hs : pre.xdndState.xdndExchangeStarted = true) (ht : pre.xdndState.amISource = false) :
    (p.xdndState.xdndExchangeStarted = true ∧ p.xdndState.amISource = false) ∨
    ∃ j msg srv, j < k ∧ evs[j]? = some (XEvent.clientMessage msg, srv) ∧
      msg.message_type = c.XdndEnter := by
  induction evs generalizing p k with
  | nil =>
    cases k with
    | zero =>
      simp only [List.getElem?_cons_zero, Option.some.injEq] at hpre
      rw [hpre]
      exact Or.inl ⟨hs, ht⟩
    | succ k => simp [runLoop] at hpre
  | cons ev rest ih =>
    cases k with
    | zero =>
      simp only [List.getElem?_cons_zero, Option.some.injEq] at hpre
      rw [hpre]
      exact Or.inl ⟨hs, ht⟩
    | succ k =>
      obtain ⟨e, srv⟩ := ev
      simp only [List.getElem?_cons_succ] at hpre
      have hk : ∃ r, (runLoop c p ((e, srv) :: rest))[k]? = some r := by
        cases hr : (runLoop c p ((e, srv) :: rest))[k]? with
        | none => simp [List.getElem?_map, hr] at hpre
        | some r => exact ⟨r, rfl⟩
      obtain ⟨r, hr⟩ := hk
      obtain ⟨r0, hstep, hrl⟩ := runLoop_cons_ok c p e srv rest k r hr
      rw [hrl] at hpre
      simp only [List.map_cons] at hpre
      rcases ih r0.1 k hpre with ⟨h1, h2⟩ | ⟨j, msg, srv1, hj, hev, hty⟩
      · rcases target_session_origin c srv p r0.1 e r0.2 hstep h1 h2 with h3 | ⟨msg, rfl, hty⟩
        · exact Or.inl h3
        · exact Or.inr ⟨0, msg, srv, by omega, by simp, hty⟩
      · exact Or.inr ⟨j + 1, msg, srv1, by omega, by simpa using hev, hty⟩

/-- C3, refuted as stated. From the idle session a target (own window `102`) handles the
`XdndEnter` of window `101` and then, without any `XdndDrop` (`xdndDropReceived` is still
false), a `SelectionNotify` for `XDND_DATA`: it emits `XdndFinished` to window `101`. -/
theorem closing_without_drop_counterexample :
    runLoop (exampleCtx 102) (initialPeer 1)
      [(.clientMessage { exampleMessage 102 3 101 with l1 := 5 <<< 24, l2 := 21 },
          exampleServer none),
       (.selectionNotify 10, exampleServer (some (propertyData SQUARE_FILE_PATH)))] =
      [({ initialPeer 1 with xdndState := { XDNDStateMachine.zero with
            xdndExchangeStarted := true, otherWindow := 101, proposedType := 21 } }, []),
       ({ initialPeer 1 with square := { (initialPeer 1).square with
            x := 35, y := 45, visible := true } },
        [Output.deleteProperty 102 10,
         Output.sendEvent 101 { exampleMessage 101 12 102 with l1 := 1, l2 := 5 }])] ∧
    ({ XDNDStateMachine.zero with
        xdndExchangeStarted := true, otherWindow := 101, proposedType := 21 } :
      XDNDStateMachine).xdndDropReceived = false := by
  decide

/-- C3, amended. In every event sequence starting from the idle session, a client message
of type `XdndFinished` is emitted only by the handling of a `SelectionNotify` for
`XDND_DATA` in a state whose exchange is started in the target role, it is addressed to the
recorded peer, and an `XdndEnter` message was handled earlier in the sequence; a received
`XdndDrop` is not required. -/
theorem closing_only_in_target_session (c : Ctx) (hd : c.MessageAtomsDistinct)
    (evs : List (XEvent × XServer)) (p : Peer) (k : Nat) (r : Peer × List Output)
    (t : Window) (m : ClientMessage)
    (hidle : p.xdndState = XDNDStateMachine.zero)
    (hres : (runLoop c p evs)[k]? = some r)
    (hmem : Output.sendEvent t m ∈ r.2)
    (hty : m.message_type = c.XdndFinished) :
    ∃ pre srv, (p :: (runLoop c p evs).map Prod.fst)[k]? = some pre ∧
      evs[k]? = some (.selectionNotify c.XDND_DATA, srv) ∧
      pre.xdndState.xdndExchangeStarted = true ∧ pre.xdndState.amISource = false ∧
      t = pre.xdndState.otherWindow ∧
      ∃ j msg srv1, j < k ∧ evs[j]? = some (XEvent.clientMessage msg, srv1) ∧
        msg.message_type = c.XdndEnter := by
  have hne := distinct_ne c hd
  obtain ⟨pre, e, srv, hpre, hev, hstep⟩ := runLoop_step c evs p k r hres
  obtain ⟨q, out⟩ := r
  rcases step_outputs c srv pre q e out t m hstep hmem with
    ⟨_, he, h1, h2, h3⟩ | ⟨h0, _⟩ | ⟨h0, _⟩ | ⟨h0, _⟩
  · refine ⟨pre, srv, hpre, by rw [hev, he], h1, h2, h3, ?_⟩
    rcases target_session_needs_enter c evs p k pre hpre h1 h2 with ⟨h4, _⟩ | h4
    · rw [hidle] at h4
      simp [XDNDStateMachine.zero] at h4
    · exact h4
  · rw [hty] at h0
    simp [hne] at h0
  · rw [hty] at h0
    simp [hne] at h0
  · rw [hty] at h0
    simp [hne] at h0

/-- C3 amended, at a concrete input: the `XdndFinished` of the sequence `XdndEnter`,
`SelectionNotify` is emitted by step 1, after the `XdndEnter` of step 0. -/
theorem closing_only_in_target_session_witness :
    (exampleCtx 102).MessageAtomsDistinct ∧
    ∃ pre srv,
      ((initialPeer 1) :: (runLoop (exampleCtx 102) (initialPeer 1)
        [(.clientMessage { exampleMessage 102 3 101 with l1 := 5 <<< 24, l2 := 21 },
            exampleServer none),
         (.selectionNotify 10, exampleServer (some (propertyData SQUARE_FILE_PATH)))]).map
          Prod.fst)[1]? = some pre ∧
      [(XEvent.clientMessage { exampleMessage 102 3 101 with l1 := 5 <<< 24, l2 := 21 },
            exampleServer none),
         (.selectionNotify 10, exampleServer (some (propertyData SQUARE_FILE_PATH)))][1]? =
        some (.selectionNotify (exampleCtx 102).XDND_DATA, srv) ∧
      pre.xdndState.xdndExchangeStarted = true ∧ pre.xdndState.amISource = false ∧
      101 = pre.xdndState.otherWindow ∧
      ∃ j msg srv1, j < 1 ∧
        [(XEvent.clientMessage { exampleMessage 102 3 101 with l1 := 5 <<< 24, l2 := 21 },
            exampleServer none),
         (.selectionNotify 10, exampleServer (some (propertyData SQUARE_FILE_PATH)))][j]? =
          some (XEvent.clientMessage msg, srv1) ∧
        msg.message_type = (exampleCtx 102).XdndEnter :=
  ⟨by decide,
   closing_only_in_target_session (exampleCtx 102) (by decide)
     [(.clientMessage { exampleMessage 102 3 101 with l1 := 5 <<< 24, l2 := 21 },
          exampleServer none),
      (.selectionNotify 10, exampleServer (some (propertyData SQUARE_FILE_PATH)))]
     (initialPeer 1) 1
     ({ initialPeer 1 with square := { (initialPeer 1).square with
          x := 35, y := 45, visible := true } },
      [Output.deleteProperty 102 10,
       Output.sendEvent 101 { exampleMessage 101 12 102 with l1 := 1, l2 := 5 }])
     101 { exampleMessage 101 12 102 with l1 := 1, l2 := 5 }
     rfl (by decide) (by decide) rfl⟩

theorem retarget_step (c : Ctx) (srv : XServer) (p : Peer) (x y x_root y_root : Int)
    (time : Time) (Y Z : Window)
    (hstarted : p.xdndState.xdndExchangeStarted = true)
    (hsource : p.xdndState.amISource = true)
    (hpeer : p.xdndState.otherWindow = Y)
    (hsel : p.square.selected = true)
    (hout : p.clickedStillInWindow = false)
    (hhit : getWindowPointerIsOver srv.tree x_root y_root 0 0 = Z)
    (hZ : Z ≠ 0) (hZY : Z ≠ Y)
    (haware : hasCorrectXdndAwareProperty (srv.xdndAware Z) ≠ 0) :
    step c srv p (.motionNotify x y x_root y_root time) = .ok
      ({ p with
          square := { p.square with
            x := clampCoord (toInt (p.square.x + toInt (x - p.square.mouse_x))),
            y := clampCoord (toInt (p.square.y + toInt (y - p.square.mouse_y))),
            mouse_x := x, mouse_y := y },
          xdndState := { XDNDStateMachine.zero with
            xdndExchangeStarted := true, amISource := true, otherWindow := Z } },
       [Output.sendEvent Y
          { window := Y, message_type := c.XdndLeave, format := 32, l0 := c.wind,
            l1 := 0, l2 := 0, l3 := 0, l4 := 0 },
        Output.setSelectionOwner c.XdndSelection c.wind time,
        Output.sendEvent Z
          { window := Z, message_type := c.XdndEnter, format := 32, l0 := c.wind,
            l1 := hasCorrectXdndAwareProperty (srv.xdndAware Z) <<< 24,
            l2 := c.typesWeAccept 0, l3 := 0, l4 := 0 },
        Output.sendEvent Z
          { window := Z, message_type := c.XdndPosition, format := 32, l0 := c.wind,
            l1 := 0, l2 := ofLong (toInt (Int.lor (x_root * 2 ^ 16) y_root)),
            l3 := ofLong (toInt (time : Int)), l4 := c.XdndActionCopy }]) := by
  simp [step, handleMotionNotify, motionLeave, motionEnter, motionSendPosition, sendXdndLeave,
    sendXdndEnter, sendXdndPosition, hstarted, hsource, hpeer, hsel, hout, hhit, hZ, hZY, haware,
    XDNDStateMachine.zero]

/-- C7 (retarget). A source negotiating with `Y`, no `XdndStatus` received, handles a motion
sample (square selected, pointer outside the own window) whose hit-tested window `Z ≠ Y`
supports XDND: it emits, in this order, `XdndLeave` to `Y`, `XdndEnter` to `Z` and
`XdndPosition` to `Z` (claiming the selection in between), and is then a source with peer
`Z`. After the `XdndLeave`, and in every later step that starts in the session with `Z`,
each client message emitted is addressed to `Z`, never to `Y`, unless it is the `XdndEnter`
or `XdndPosition` of the next session, opened by that step with the window it is sent to. -/
theorem retarget_abandons_then_opens (c : Ctx) (srv : XServer) (p : Peer)
    (x y x_root y_root : Int) (time : Time) (Y Z : Window)
    (hstarted : p.xdndState.xdndExchangeStarted = true)
    (hsource : p.xdndState.amISource = true)
    (hpeer : p.xdndState.otherWindow = Y)
    (hnoack : p.xdndState.xdndStatusReceived = false)
    (hsel : p.square.selected = true)
    (hout : p.clickedStillInWindow = false)
    (hhit : getWindowPointerIsOver srv.tree x_root y_root 0 0 = Z)
    (hZ : Z ≠ 0) (hZY : Z ≠ Y)
    (haware : hasCorrectXdndAwareProperty (srv.xdndAware Z) ≠ 0) :
    ∃ q, step c srv p (.motionNotify x y x_root y_root time) = .ok
        (q,
         [Output.sendEvent Y
            { window := Y, message_type := c.XdndLeave, format := 32, l0 := c.wind,
              l1 := 0, l2 := 0, l3 := 0, l4 := 0 },
          Output.setSelectionOwner c.XdndSelection c.wind time,
          Output.sendEvent Z
            { window := Z, message_type := c.XdndEnter, format := 32, l0 := c.wind,
              l1 := hasCorrectXdndAwareProperty (srv.xdndAware Z) <<< 24,
              l2 := c.typesWeAccept 0, l3 := 0, l4 := 0 },
          Output.sendEvent Z
            { window := Z, message_type := c.XdndPosition, format := 32, l0 := c.wind,
              l1 := 0, l2 := ofLong (toInt (Int.lor (x_root * 2 ^ 16) y_root)),
              l3 := ofLong (toInt (time : Int)), l4 := c.XdndActionCopy }]) ∧
      q.xdndState = { XDNDStateMachine.zero with
        xdndExchangeStarted := true, amISource := true, otherWindow := Z } ∧
      ∀ (evs : List (XEvent × XServer)) (k : Nat) (pre : Peer) (r : Peer × List Output)
        (t : Window) (m : ClientMessage),
        (q :: (runLoop c q evs).map Prod.fst)[k]? = some pre →
        (runLoop c q evs)[k]? = some r →
        pre.xdndState.xdndExchangeStarted = true → pre.xdndState.amISource = true →
        pre.xdndState.otherWindow = Z →
        Output.sendEvent t m ∈ r.2 →
        (t = Z ∧ t ≠ Y) ∨
        ((m.message_type = c.XdndEnter ∨ m.message_type = c.XdndPosition) ∧
          r.1.xdndState.xdndExchangeStarted = true ∧ r.1.xdndState.amISource = true ∧
          r.1.xdndState.otherWindow = t ∧ t ≠ Z) := by
  have _ := hnoack
  refine ⟨_, retarget_step c srv p x y x_root y_root time Y Z hstarted hsource hpeer hsel hout
    hhit hZ hZY haware, rfl, ?_⟩
  intro evs k pre r t m hpre hres hs hsrc hw hmem
  obtain ⟨pre1, e, srv1, hpre1, _, hstep⟩ := runLoop_step c evs _ k r hres
  rw [hpre] at hpre1
  simp only [Option.some.injEq] at hpre1
  subst hpre1
  obtain ⟨q1, out⟩ := r
  by_cases htZ : t = Z
  · exact Or.inl ⟨htZ, by rw [htZ]; exact hZY⟩
  · right
    rcases step_outputs c srv1 pre q1 e out t m hstep hmem with
      ⟨_, _, _, h2, _⟩ | ⟨_, _, h2, _⟩ | ⟨_, _, _, h3⟩ | ⟨h0, h1, h2, h3⟩
    · rw [hsrc] at h2
      simp at h2
    · rw [hsrc] at h2
      simp at h2
    · exact absurd (h3.trans hw) htZ
    · exact ⟨h0, h1, h2, h3, htZ⟩

/-- C7, at a concrete input: the source `101`, negotiating with `102`, is dragged over
window `103`. -/
theorem retarget_abandons_then_opens_witness :
    getWindowPointerIsOver (exampleServer none).tree 450 50 0 0 = 103 ∧
    hasCorrectXdndAwareProperty ((exampleServer none).xdndAware 103) ≠ 0 ∧
    ∃ q, step (exampleCtx 101) (exampleServer none) exampleSource
        (.motionNotify 260 40 450 50 2000) = .ok
        (q,
         [Output.sendEvent 102 (exampleMessage 102 6 101),
          Output.setSelectionOwner 9 101 2000,
          Output.sendEvent 103 { exampleMessage 103 3 101 with l1 := 5 <<< 24, l2 := 21 },
          Output.sendEvent 103
            { exampleMessage 103 4 101 with l2 := 450 * 65536 + 50, l3 := 2000, l4 := 5 }]) ∧
      q.xdndState = { XDNDStateMachine.zero with
        xdndExchangeStarted := true, amISource := true, otherWindow := 103 } :=
  ⟨by decide, by decide,
   (retarget_abandons_then_opens (exampleCtx 101) (exampleServer none) exampleSource
      260 40 450 50 2000 102 103 rfl rfl rfl rfl rfl rfl (by decide) (by decide) (by decide)
      (by decide)).imp fun _ h => ⟨h.1, h.2.1⟩⟩

theorem clampCoord_bounds (v : Int) : 0 ≤ clampCoord v ∧ clampCoord v ≤ 150 := by
  unfold clampCoord
  simp only
  split_ifs <;> omega

theorem inline_first_type (c : Ctx) (srv : XServer) (s : XDNDStateMachine) (m : ClientMessage)
    (v : Nat) (h1 : m.l1 = v <<< 24) (h2 : m.l2 = c.typesWeAccept 0) :
    (handleXdndEnter c srv s m).proposedType = c.typesWeAccept 0 := by
  have hbit : m.l1 % 2 = 0 := by
    rw [h1, Nat.shiftLeft_eq]
    omega
  have hacc : doWeAcceptAtom c (c.typesWeAccept 0) = true :=
    (doWeAcceptAtom_iff c _).2 ⟨0, rfl⟩
  simp [handleXdndEnter, hbit, firstSupported, h2, hacc]

theorem source_opens (c : Ctx) (srv : XServer) (p : Peer) (x y x_root y_root : Int)
    (time : Time) (T : Window)
    (hidle : p.xdndState = XDNDStateMachine.zero)
    (hsel : p.square.selected = true)
    (hout : p.clickedStillInWindow = false)
    (hhit : getWindowPointerIsOver srv.tree x_root y_root 0 0 = T)
    (hT : T ≠ 0)
    (haware : hasCorrectXdndAwareProperty (srv.xdndAware T) ≠ 0) :
    step c srv p (.motionNotify x y x_root y_root time) = .ok
      ({ p with
          square := { p.square with
            x := clampCoord (toInt (p.square.x + toInt (x - p.square.mouse_x))),
            y := clampCoord (toInt (p.square.y + toInt (y - p.square.mouse_y))),
            mouse_x := x, mouse_y := y },
          xdndState := { XDNDStateMachine.zero with
            xdndExchangeStarted := true, amISource := true, otherWindow := T } },
       [Output.setSelectionOwner c.XdndSelection c.wind time,
        Output.sendEvent T
          { window := T, message_type := c.XdndEnter, format := 32, l0 := c.wind,
            l1 := hasCorrectXdndAwareProperty (srv.xdndAware T) <<< 24,
            l2 := c.typesWeAccept 0, l3 := 0, l4 := 0 },
        Output.sendEvent T
          { window := T, message_type := c.XdndPosition, format := 32, l0 := c.wind,
            l1 := 0, l2 := ofLong (toInt (Int.lor (x_root * 2 ^ 16) y_root)),
            l3 := ofLong (toInt (time : Int)), l4 := c.XdndActionCopy }]) := by
  simp [step, handleMotionNotify, motionLeave, motionEnter, motionSendPosition,
    sendXdndEnter, sendXdndPosition, hidle, hsel, hout, hhit, hT, haware,
    XDNDStateMachine.zero]

theorem source_status_accepted (c : Ctx) (hd : c.MessageAtomsDistinct) (srv : XServer)
    (p : Peer) (m : ClientMessage)
    (hstarted : p.xdndState.xdndExchangeStarted = true)
    (hsource : p.xdndState.amISource = true)
    (hty : m.message_type = c.XdndStatus) (hacc : m.l1 = 1) :
    step c srv p (.clientMessage m) = .ok
      ({ p with xdndState := { p.xdndState with xdndStatusReceived := true } }, []) := by
  have hne := distinct_ne c hd
  simp [step, handleClientMessage, handleSourceMessage, hstarted, hsource, hty, hacc, hne]

theorem source_drops (c : Ctx) (srv : XServer) (p : Peer)
    (hstarted : p.xdndState.xdndExchangeStarted = true)
    (hsource : p.xdndState.amISource = true)
    (hstatus : p.xdndState.xdndStatusReceived = true)
    (hsel : p.square.selected = true) :
    step c srv p .buttonRelease = .ok
      ({ p with square := { p.square with selected := false } },
       [Output.sendEvent p.xdndState.otherWindow
          { window := p.xdndState.otherWindow, message_type := c.XdndDrop, format := 32,
            l0 := c.wind, l1 := 0, l2 := p.xdndState.xdndLastPositionTimestamp,
            l3 := 0, l4 := 0 }]) := by
  simp [step, handleButtonRelease, sendXdndDrop, hstarted, hsource, hstatus, hsel]

theorem target_accepts_drop (c : Ctx) (hd : c.MessageAtomsDistinct) (srv : XServer) (p : Peer)
    (m : ClientMessage)
    (hstarted : p.xdndState.xdndExchangeStarted = true)
    (htarget : p.xdndState.amISource = false)
    (hty : m.message_type = c.XdndDrop)
    (hpos : p.xdndState.xdndPositionReceived = true)
    (hsender : m.l0 = p.xdndState.otherWindow) :
    step c srv p (.clientMessage m) = .ok
      ({ p with xdndState := { p.xdndState with
            xdndDropReceived := true, xdndDropTimestamp := m.l2 } },
       [Output.convertSelection c.XdndSelection p.xdndState.proposedType c.XDND_DATA c.wind
          m.l2]) := by
  have hne := distinct_ne c hd
  simp [step, handleClientMessage, handleTargetMessage, handleXdndPosition, handleXdndLeave,
    handleXdndDrop, hstarted, htarget, hty, hne, hpos, hsender]

theorem source_answers_request (c : Ctx) (srv : XServer) (p : Peer) (req : SelectionRequest)
    (hstarted : p.xdndState.xdndExchangeStarted = true)
    (hsource : p.xdndState.amISource = true) :
    step c srv p (.selectionRequest req) = .ok
      (p,
       [Output.fwrite SQUARE_FILE_PATH p.square.colour,
        Output.changeProperty req.requestor req.property (c.typesWeAccept 0) 8
          (propertyData SQUARE_FILE_PATH),
        Output.sendSelectionNotify req.requestor req]) := by
  simp [step, handleSelectionRequest, sendSelectionNotify, hstarted, hsource]

theorem target_finishes (c : Ctx) (srv : XServer) (p : Peer) (pathStr : List Nat)
    (colour : Int)
    (hstarted : p.xdndState.xdndExchangeStarted = true)
    (htarget : p.xdndState.amISource = false)
    (hdata : getCopiedData srv.xdndData = .ok (some pathStr))
    (hfile : srv.fread pathStr = some colour) :
    step c srv p (.selectionNotify c.XDND_DATA) = .ok
      ({ p with
          square := { p.square with
            colour := colour, visible := true,
            x := clampCoord (toInt (srv.winXReturn - 25)),
            y := clampCoord (toInt (srv.winYReturn - 25)) },
          xdndState := XDNDStateMachine.zero },
       [Output.deleteProperty c.wind c.XDND_DATA,
        Output.sendEvent p.xdndState.otherWindow
          { window := p.xdndState.otherWindow, message_type := c.XdndFinished, format := 32,
            l0 := c.wind, l1 := 1, l2 := c.XdndActionCopy, l3 := 0, l4 := 0 }]) := by
  simp [step, handleSelectionNotify, hdata, hfile, sendXdndFinished, hstarted, htarget]

theorem source_finished (c : Ctx) (hd : c.MessageAtomsDistinct) (srv : XServer) (p : Peer)
    (m : ClientMessage)
    (hstarted : p.xdndState.xdndExchangeStarted = true)
    (hsource : p.xdndState.amISource = true)
    (hty : m.message_type = c.XdndFinished) :
    step c srv p (.clientMessage m) = .ok
      ({ p with square := { p.square with visible := false },
                xdndState := XDNDStateMachine.zero }, []) := by
  have hne := distinct_ne c hd
  simp [step, handleClientMessage, handleSourceMessage, hstarted, hsource, hty, hne]

/-- C1 (happy path). Source `X` (context `c`, own window `c.wind`) and target `Y` (own
window `wY`), both idle. `X` drags its selected square over the XDND-aware window `wY`: it
emits `XdndEnter` then `XdndPosition` to `wY`. `Y` handles them and emits exactly one
`XdndStatus` with slot 1 equal to `1` and the copy action. `X` handles it and a button
release: it emits `XdndDrop` to `wY`. `Y` handles it and calls `XConvertSelection` for
`text/uri-list` (`typesWeAccept[0]`). `X` answers the resulting `SelectionRequest`; `Y`
handles the `SelectionNotify`, reading the bytes `X` stored and the file `X` wrote: it emits
`XdndFinished` to `X`, is idle, and its square is visible inside `[0,150] x [0,150]`. `X`
handles `XdndFinished`: it is idle and its square is hidden. -/
theorem happy_path (c : Ctx) (hd : c.MessageAtomsDistinct) (wY : Window)
    (srvX srv srvY : XServer) (pX pY : Peer) (x y x_root y_root : Int) (time : Time)
    (hX : pX.xdndState = XDNDStateMachine.zero)
    (hY : pY.xdndState = XDNDStateMachine.zero)
    (hsel : pX.square.selected = true)
    (hout : pX.clickedStillInWindow = false)
    (hhit : getWindowPointerIsOver srvX.tree x_root y_root 0 0 = wY)
    (hwY : wY ≠ 0)
    (haware : hasCorrectXdndAwareProperty (srvX.xdndAware wY) ≠ 0)
    (hdata : srvY.xdndData = some (propertyData SQUARE_FILE_PATH))
    (hfile : srvY.fread SQUARE_FILE_PATH = some pX.square.colour) :
    HappyPath c wY srvX srv srvY pX pY x y x_root y_root time := by
  unfold HappyPath
  have hdY : ({ c with wind := wY } : Ctx).MessageAtomsDistinct := hd
  have h1 := source_opens c srvX pX x y x_root y_root time wY hX hsel hout hhit hwY haware
  generalize ofLong (toInt (Int.lor (x_root * 2 ^ 16) y_root)) = l2v at *
  generalize ofLong (toInt (time : Int)) = l3v at *
  have hcopy : getCopiedData srvY.xdndData = .ok (some SQUARE_FILE_PATH) := by
    rw [hdata, propertyData_eq SQUARE_FILE_PATH (by decide)]
    exact getCopiedData_framed SQUARE_FILE_PATH (by decide)
  have h2 := step_enter_idle _ hdY srv pY
    { window := wY, message_type := c.XdndEnter, format := 32, l0 := c.wind,
      l1 := hasCorrectXdndAwareProperty (srvX.xdndAware wY) <<< 24,
      l2 := c.typesWeAccept 0, l3 := 0, l4 := 0 } hY rfl
  have ht := inline_first_type { c with wind := wY } srv XDNDStateMachine.zero
    { window := wY, message_type := c.XdndEnter, format := 32, l0 := c.wind,
      l1 := hasCorrectXdndAwareProperty (srvX.xdndAware wY) <<< 24,
      l2 := c.typesWeAccept 0, l3 := 0, l4 := 0 }
    (hasCorrectXdndAwareProperty (srvX.xdndAware wY)) rfl rfl
  rw [ht] at h2
  have h3 := step_first_position _ hdY srv
    { pY with xdndState := { XDNDStateMachine.zero with
      xdndExchangeStarted := true, otherWindow := c.wind,
      proposedType := c.typesWeAccept 0 } }
    { window := wY, message_type := c.XdndPosition, format := 32, l0 := c.wind,
      l1 := 0, l2 := l2v,
      l3 := l3v, l4 := c.XdndActionCopy } c.wind (c.typesWeAccept 0)
    rfl rfl
  have h4 := source_status_accepted c hd srv
    { pX with
      square := { pX.square with
        x := clampCoord (toInt (pX.square.x + toInt (x - pX.square.mouse_x))),
        y := clampCoord (toInt (pX.square.y + toInt (y - pX.square.mouse_y))),
        mouse_x := x, mouse_y := y },
      xdndState := { XDNDStateMachine.zero with
        xdndExchangeStarted := true, amISource := true, otherWindow := wY } }
    { window := c.wind, message_type := c.XdndStatus, format := 32, l0 := wY,
      l1 := 1, l2 := 0, l3 := 0, l4 := c.XdndActionCopy }
    rfl rfl rfl rfl
  have h5 := source_drops c srv
    { pX with
      square := { pX.square with
        x := clampCoord (toInt (pX.square.x + toInt (x - pX.square.mouse_x))),
        y := clampCoord (toInt (pX.square.y + toInt (y - pX.square.mouse_y))),
        mouse_x := x, mouse_y := y },
      xdndState := { XDNDStateMachine.zero with
        xdndExchangeStarted := true, amISource := true, otherWindow := wY,
        xdndStatusReceived := true } } rfl rfl rfl hsel
  have h6 := target_accepts_drop _ hdY srv
    { pY with xdndState := { XDNDStateMachine.zero with
      xdndExchangeStarted := true, otherWindow := c.wind, proposedType := c.typesWeAccept 0,
      xdndPositionReceived := true, xdndStatusSent := true,
      p_rootX := toInt (asLong (l2v) >>> 16),
      p_rootY := toInt (Int.land
        (asLong (l2v)) 0xFFFF),
      proposedAction := c.XdndActionCopy,
      xdndLastPositionTimestamp := l3v } }
    { window := wY, message_type := c.XdndDrop, format := 32, l0 := c.wind,
      l1 := 0, l2 := 0, l3 := 0, l4 := 0 }
    rfl rfl rfl rfl rfl
  have h7 := source_answers_request c srv
    { pX with
      square := { pX.square with
        x := clampCoord (toInt (pX.square.x + toInt (x - pX.square.mouse_x))),
        y := clampCoord (toInt (pX.square.y + toInt (y - pX.square.mouse_y))),
        mouse_x := x, mouse_y := y, selected := false },
      xdndState := { XDNDStateMachine.zero with
        xdndExchangeStarted := true, amISource := true, otherWindow := wY,
        xdndStatusReceived := true } }
    { requestor := wY, selection := c.XdndSelection, target := c.typesWeAccept 0,
      property := c.XDND_DATA, time := 0 } rfl rfl
  have h8 := target_finishes { c with wind := wY } srvY
    { pY with xdndState := { XDNDStateMachine.zero with
      xdndExchangeStarted := true, otherWindow := c.wind, proposedType := c.typesWeAccept 0,
      xdndPositionReceived := true, xdndStatusSent := true,
      p_rootX := toInt (asLong (l2v) >>> 16),
      p_rootY := toInt (Int.land
        (asLong (l2v)) 0xFFFF),
      proposedAction := c.XdndActionCopy,
      xdndLastPositionTimestamp := l3v,
      xdndDropReceived := true, xdndDropTimestamp := 0 } }
    SQUARE_FILE_PATH pX.square.colour rfl rfl hcopy hfile
  have h9 := source_finished c hd srv
    { pX with
      square := { pX.square with
        x := clampCoord (toInt (pX.square.x + toInt (x - pX.square.mouse_x))),
        y := clampCoord (toInt (pX.square.y + toInt (y - pX.square.mouse_y))),
        mouse_x := x, mouse_y := y, selected := false },
      xdndState := { XDNDStateMachine.zero with
        xdndExchangeStarted := true, amISource := true, otherWindow := wY,
        xdndStatusReceived := true } }
    { window := c.wind, message_type := c.XdndFinished, format := 32, l0 := wY,
      l1 := 1, l2 := c.XdndActionCopy, l3 := 0, l4 := 0 } rfl rfl rfl
  refine ⟨
    { pX with
      square := { pX.square with
        x := clampCoord (toInt (pX.square.x + toInt (x - pX.square.mouse_x))),
        y := clampCoord (toInt (pX.square.y + toInt (y - pX.square.mouse_y))),
        mouse_x := x, mouse_y := y }, xdndState := { XDNDStateMachine.zero with
        xdndExchangeStarted := true, amISource := true, otherWindow := wY } },
    { pY with xdndState := { XDNDStateMachine.zero with
      xdndExchangeStarted := true, otherWindow := c.wind,
      proposedType := c.typesWeAccept 0 } },
    { pY with xdndState := { XDNDStateMachine.zero with
      xdndExchangeStarted := true, otherWindow := c.wind, proposedType := c.typesWeAccept 0,
      xdndPositionReceived := true, xdndStatusSent := true,
      p_rootX := toInt (asLong (l2v) >>> 16),
      p_rootY := toInt (Int.land
        (asLong (l2v)) 0xFFFF),
      proposedAction := c.XdndActionCopy,
      xdndLastPositionTimestamp := l3v } },
    { pX with
      square := { pX.square with
        x := clampCoord (toInt (pX.square.x + toInt (x - pX.square.mouse_x))),
        y := clampCoord (toInt (pX.square.y + toInt (y - pX.square.mouse_y))),
        mouse_x := x, mouse_y := y },
      xdndState := { XDNDStateMachine.zero with
        xdndExchangeStarted := true, amISource := true, otherWindow := wY,
        xdndStatusReceived := true } },
    { pX with
      square := { pX.square with
        x := clampCoord (toInt (pX.square.x + toInt (x - pX.square.mouse_x))),
        y := clampCoord (toInt (pX.square.y + toInt (y - pX.square.mouse_y))),
        mouse_x := x, mouse_y := y, selected := false },
      xdndState := { XDNDStateMachine.zero with
        xdndExchangeStarted := true, amISource := true, otherWindow := wY,
        xdndStatusReceived := true } },
    { pY with xdndState := { XDNDStateMachine.zero with
      xdndExchangeStarted := true, otherWindow := c.wind, proposedType := c.typesWeAccept 0,
      xdndPositionReceived := true, xdndStatusSent := true,
      p_rootX := toInt (asLong (l2v) >>> 16),
      p_rootY := toInt (Int.land
        (asLong (l2v)) 0xFFFF),
      proposedAction := c.XdndActionCopy,
      xdndLastPositionTimestamp := l3v, xdndDropReceived := true, xdndDropTimestamp := 0 } },
    { pX with
      square := { pX.square with
        x := clampCoord (toInt (pX.square.x + toInt (x - pX.square.mouse_x))),
        y := clampCoord (toInt (pX.square.y + toInt (y - pX.square.mouse_y))),
        mouse_x := x, mouse_y := y, selected := false },
      xdndState := { XDNDStateMachine.zero with
        xdndExchangeStarted := true, amISource := true, otherWindow := wY,
        xdndStatusReceived := true } },
    { pY with
      square := { pY.square with
        colour := pX.square.colour, visible := true,
        x := clampCoord (toInt (srvY.winXReturn - 25)),
        y := clampCoord (toInt (srvY.winYReturn - 25)) },
      xdndState := XDNDStateMachine.zero },
    { pX with
      square := { pX.square with
        x := clampCoord (toInt (pX.square.x + toInt (x - pX.square.mouse_x))),
        y := clampCoord (toInt (pX.square.y + toInt (y - pX.square.mouse_y))),
        mouse_x := x, mouse_y := y, selected := false, visible := false },
      xdndState := XDNDStateMachine.zero },
    h1, h2, h3, h4, h5, h6, h7, h8, rfl, rfl, rfl,
    (clampCoord_bounds _).1, (clampCoord_bounds _).2,
    (clampCoord_bounds _).1, (clampCoord_bounds _).2, h9, rfl, rfl⟩

/-- C1, at a concrete input: the source `101` drags its square to the root position
`(250, 50)`, over window `102`, which runs the target. -/
theorem happy_path_witness :
    (exampleCtx 101).MessageAtomsDistinct ∧
    getWindowPointerIsOver (exampleServer none).tree 250 50 0 0 = 102 ∧
    hasCorrectXdndAwareProperty ((exampleServer none).xdndAware 102) ≠ 0 ∧
    HappyPath (exampleCtx 101) 102 (exampleServer none) (exampleServer none)
      (exampleServer (some (propertyData SQUARE_FILE_PATH))) exampleDragging (initialPeer 1)
      260 40 250 50 2000 :=
  ⟨by decide, by decide, by decide,
   happy_path (exampleCtx 101) (by decide) 102 (exampleServer none) (exampleServer none)
     (exampleServer (some (propertyData SQUARE_FILE_PATH))) exampleDragging (initialPeer 1)
     260 40 250 50 2000 rfl rfl rfl rfl (by decide) (by decide) (by decide) rfl rfl⟩

/-- C11, evaluated at a concrete session. The idle source `101` is dragged over window `102`
at time `2000`: its `XdndPosition` carries `2000` in slot 3. It then handles an accepting
`XdndStatus` and a button release: the `XdndDrop` it emits carries `0` in slot 2, because
no handler of the source ever assigns `xdndLastPositionTimestamp`. -/
theorem drop_carries_zero_timestamp :
    (runLoop (exampleCtx 101) exampleDragging
      [(.motionNotify 260 40 250 50 2000, exampleServer none),
       (.clientMessage { exampleMessage 101 7 102 with l1 := 1, l4 := 5 }, exampleServer none),
       (.buttonRelease, exampleServer none)]).map Prod.snd =
      [[Output.setSelectionOwner 9 101 2000,
        Output.sendEvent 102 { exampleMessage 102 3 101 with l1 := 5 <<< 24, l2 := 21 },
        Output.sendEvent 102
          { exampleMessage 102 4 101 with l2 := 250 * 65536 + 50, l3 := 2000, l4 := 5 }],
       [],
       [Output.sendEvent 102 { exampleMessage 102 8 101 with l2 := 0 }]] := by
  decide

/-- C13 (single in-flight exchange). While an exchange is started, in either role, an
`XdndEnter` message from any sender leaves the whole state unchanged and emits nothing; and
`sendXdndEnter` emits nothing when called with the exchange started. -/
theorem opening_ignored_while_active (c : Ctx) (hd : c.MessageAtomsDistinct) (srv : XServer)
    (p : Peer) (m : ClientMessage) (xdndVersion : Nat) (source target : Window)
    (hstarted : p.xdndState.xdndExchangeStarted = true)
    (hty : m.message_type = c.XdndEnter) :
    step c srv p (.clientMessage m) = .ok (p, []) ∧
    sendXdndEnter c p.xdndState xdndVersion source target = [] := by
  have hne := distinct_ne c hd
  refine ⟨?_, by simp [sendXdndEnter, hstarted]⟩
  cases hsrc : p.xdndState.amISource with
  | true =>
    simp [step, handleClientMessage, handleSourceMessage, hstarted, hsrc, hty, hne]
  | false =>
    simp [step, handleClientMessage, handleTargetMessage, handleXdndPosition, handleXdndLeave,
      handleXdndDrop, hstarted, hsrc, hty, hne]

/-- C13, at a concrete input: a source negotiating with `102` and a tracking target each
ignore an `XdndEnter` of window `999`. -/
theorem opening_ignored_while_active_witness :
    (exampleCtx 101).MessageAtomsDistinct ∧
    (step (exampleCtx 101) (exampleServer none) exampleSource
      (.clientMessage { exampleMessage 101 3 999 with l1 := 5 <<< 24, l2 := 21 }) =
        .ok (exampleSource, []) ∧
     sendXdndEnter (exampleCtx 101) exampleSource.xdndState 5 101 103 = []) :=
  ⟨by decide,
   opening_ignored_while_active (exampleCtx 101) (by decide) (exampleServer none) exampleSource
     { exampleMessage 101 3 999 with l1 := 5 <<< 24, l2 := 21 } 5 101 103 rfl rfl⟩

theorem buttonRelease_keeps_session (c : Ctx) (srv : XServer) (p : Peer) :
    ∃ q, step c srv p .buttonRelease = .ok
        (q, if p.xdndState.xdndExchangeStarted && p.xdndState.amISource &&
              p.xdndState.xdndStatusReceived then
            sendXdndDrop c p.xdndState c.wind p.xdndState.otherWindow
          else []) ∧
      q.xdndState = p.xdndState ∧ q.continueEventLoop = p.continueEventLoop := by
  by_cases hsel : p.square.selected = true
  · exact ⟨{ p with square := { p.square with selected := false } },
      by simp [step, handleButtonRelease, hsel], rfl, rfl⟩
  · exact ⟨p, by simp [step, handleButtonRelease, hsel], rfl, rfl⟩

/-- C16, refuted as stated. The idle source `101` is dragged over window `102`, handles an
accepting `XdndStatus` and then two button releases: each of the two emits an `XdndDrop`
to window `102`. -/
theorem second_release_drops_again_counterexample :
    (runLoop (exampleCtx 101) exampleDragging
      [(.motionNotify 260 40 250 50 2000, exampleServer none),
       (.clientMessage { exampleMessage 101 7 102 with l1 := 1, l4 := 5 }, exampleServer none),
       (.buttonRelease, exampleServer none),
       (.buttonRelease, exampleServer none)]).map Prod.snd =
      [[Output.setSelectionOwner 9 101 2000,
        Output.sendEvent 102 { exampleMessage 102 3 101 with l1 := 5 <<< 24, l2 := 21 },
        Output.sendEvent 102
          { exampleMessage 102 4 101 with l2 := 250 * 65536 + 50, l3 := 2000, l4 := 5 }],
       [],
       [Output.sendEvent 102 (exampleMessage 102 8 101)],
       [Output.sendEvent 102 (exampleMessage 102 8 101)]] := by
  decide

/-- C16, amended. In a source session that has received an `XdndStatus`, a button release
emits one `XdndDrop` to the recorded peer and leaves the session state as it was, so every
one of any number of consecutive button releases emits an `XdndDrop`. -/
theorem every_release_drops (c : Ctx) (srvs : List XServer) (p : Peer)
    (hstarted : p.xdndState.xdndExchangeStarted = true)
    (hsource : p.xdndState.amISource = true)
    (hstatus : p.xdndState.xdndStatusReceived = true)
    (hrun : p.continueEventLoop = true) :
    (runLoop c p (srvs.map fun srv => (XEvent.buttonRelease, srv))).map Prod.snd =
      (srvs.map fun _ =>
        [Output.sendEvent p.xdndState.otherWindow
          { window := p.xdndState.otherWindow, message_type := c.XdndDrop, format := 32,
            l0 := c.wind, l1 := 0, l2 := p.xdndState.xdndLastPositionTimestamp,
            l3 := 0, l4 := 0 }]) ∧
    ∀ r ∈ runLoop c p (srvs.map fun srv => (XEvent.buttonRelease, srv)),
      r.1.xdndState = p.xdndState := by
  induction srvs generalizing p with
  | nil => simp [runLoop]
  | cons srv rest ih =>
    obtain ⟨q, hq, hs, hc⟩ := buttonRelease_keeps_session c srv p
    simp only [hstarted, hsource, hstatus, Bool.and_self, if_true, sendXdndDrop] at hq
    obtain ⟨h1, h2⟩ := ih q (by rw [hs]; exact hstarted) (by rw [hs]; exact hsource)
      (by rw [hs]; exact hstatus) (hc.trans hrun)
    rw [hs] at h1 h2
    simp only [List.map_cons, runLoop, hrun, if_true, hq, h1, true_and]
    intro r hr
    rcases List.mem_cons.1 hr with rfl | hr
    · exact hs
    · exact h2 r hr

/-- C16 amended, at a concrete input: a source with peer `102` that has received the
`XdndStatus` handles three button releases. -/
theorem every_release_drops_witness :
    (runLoop (exampleCtx 101)
      { exampleSource with xdndState := { exampleSource.xdndState with
          xdndStatusReceived := true } }
      ((List.replicate 3 (exampleServer none)).map
        fun srv => (XEvent.buttonRelease, srv))).map Prod.snd =
      (List.replicate 3 (exampleServer none)).map fun _ =>
        [Output.sendEvent 102 (exampleMessage 102 8 101)] :=
  (every_release_drops (exampleCtx 101) (List.replicate 3 (exampleServer none))
    { exampleSource with xdndState := { exampleSource.xdndState with
        xdndStatusReceived := true } } rfl rfl rfl rfl).1

theorem flagsKept_refl (s : XDNDStateMachine) : FlagsKept s s :=
  ⟨id, id, id, id, id⟩

/-- A session discarded in a step keeps none of its parts: what is left is the zero value,
or a state with another peer in which the four flags other than `xdndExchangeStarted` are
clear and the timestamps, position, action and type are zero. -/
theorem wipedInStep_discards (c : Ctx) (srv : XServer) (s t : XDNDStateMachine) (e : XEvent)
    (h : WipedInStep c srv s e t) :
    t = XDNDStateMachine.zero ∨
    (t.otherWindow ≠ s.otherWindow ∧ t.amISource = true ∧
      t.xdndPositionReceived = false ∧ t.xdndStatusReceived = false ∧
      t.xdndStatusSent = false ∧ t.xdndDropReceived = false ∧
      t.xdndDropTimestamp = 0 ∧ t.xdndLastPositionTimestamp = 0 ∧
      t.p_rootX = 0 ∧ t.p_rootY = 0 ∧ t.proposedAction = 0 ∧ t.proposedType = 0) := by
  rcases h with h | h
  · exact Or.inl h
  · cases e with
    | motionNotify x y x_root y_root time =>
      obtain ⟨_, hne, _, ht⟩ := h
      right
      rw [ht]
      exact ⟨hne, rfl, rfl, rfl, rfl, rfl, rfl, rfl, rfl, rfl, rfl, rfl⟩
    | _ => exact h.elim

/-- A state that differs from a started source session only in a cleared
`xdndStatusReceived` is neither flag-keeping nor the result of a discarded session. -/
theorem clearing_one_flag_excluded (c : Ctx) (srv : XServer) (e : XEvent) :
    ¬ (FlagsKept { exampleSource.xdndState with xdndStatusReceived := true }
          exampleSource.xdndState ∨
        WipedInStep c srv { exampleSource.xdndState with xdndStatusReceived := true } e
          exampleSource.xdndState) := by
  rintro (h | h)
  · exact absurd (h.2.2.1 rfl) (by decide)
  · rcases wipedInStep_discards c srv _ _ e h with h1 | h1
    · exact absurd h1 (by decide)
    · exact h1.1 rfl

theorem motion_flags (c : Ctx) (srv : XServer) (p : Peer) (x y x_root y_root : Int)
    (time : Time) :
    FlagsKept p.xdndState (handleMotionNotify c srv p x y x_root y_root time).1.xdndState ∨
    WipedInStep c srv p.xdndState (.motionNotify x y x_root y_root time)
      (handleMotionNotify c srv p x y x_root y_root time).1.xdndState := by
  unfold handleMotionNotify WipedInStep
  by_cases hsel : p.square.selected = true
  swap
  · simp [hsel, flagsKept_refl]
  by_cases hclick : p.clickedStillInWindow = true
  · simp [hsel, hclick, flagsKept_refl]
  by_cases hT : getWindowPointerIsOver srv.tree x_root y_root 0 0 = 0
  · simp [hsel, hclick, hT, flagsKept_refl]
  simp only [hsel, hclick, if_true, Bool.not_eq_true, Bool.not_eq_true', beq_iff_eq, hT,
    if_false, Bool.false_eq_true, Bool.not_false]
  generalize getWindowPointerIsOver srv.tree x_root y_root 0 0 = T
  have hL : (motionLeave c p.xdndState T).1 = p.xdndState ∨
      ((motionLeave c p.xdndState T).1 = XDNDStateMachine.zero ∧
        p.xdndState.xdndExchangeStarted = true ∧ T ≠ p.xdndState.otherWindow) := by
    unfold motionLeave
    by_cases h : (p.xdndState.xdndExchangeStarted && T != p.xdndState.otherWindow) = true
    · rw [if_pos h]
      simp only [Bool.and_eq_true, bne_iff_ne, ne_eq] at h
      exact Or.inr ⟨rfl, h.1, h.2⟩
    · rw [if_neg h]; exact Or.inl rfl
  rcases hL' : motionLeave c p.xdndState T with ⟨s1, out1⟩
  rw [hL'] at hL
  simp only at hL ⊢
  cases hE : motionEnter c srv s1 T time with
  | none =>
    simp only
    rcases hL with h | ⟨h, _, _⟩
    · rw [h]; exact Or.inl (flagsKept_refl _)
    · exact Or.inr (Or.inl h)
  | some r =>
    obtain ⟨s2, out2⟩ := r
    simp only
    rcases motionEnter_some c srv s1 s2 T time out2 hE with ⟨_, h2, _⟩ | ⟨_, h2, _⟩
    · rw [h2]
      rcases hL with h | ⟨h, _, _⟩
      · rw [h]; exact Or.inl (flagsKept_refl _)
      · exact Or.inr (Or.inl h)
    · rw [h2]
      rcases hL with h | ⟨h, hs, hne⟩
      · rw [h]
        exact Or.inl ⟨fun _ => rfl, id, id, id, id⟩
      · rw [h]
        exact Or.inr (Or.inr ⟨hs, hne, rfl, rfl⟩)

theorem clientMessage_flags (c : Ctx) (srv : XServer) (p : Peer) (msg : ClientMessage) :
    FlagsKept p.xdndState (handleClientMessage c srv p msg).1.xdndState ∨
    (handleClientMessage c srv p msg).1.xdndState = XDNDStateMachine.zero := by
  unfold handleClientMessage
  by_cases h1 : (msg.message_type == c.WM_PROTOCOLS && msg.l0 == c.WM_DELETE_WINDOW) = true
  · rw [if_pos h1]
    exact Or.inl (flagsKept_refl _)
  rw [if_neg h1]
  by_cases h2 : (!p.xdndState.xdndExchangeStarted) = true
  · rw [if_pos h2]
    by_cases h3 : (msg.message_type == c.XdndEnter) = true
    · rw [if_pos h3]
      left
      rw [handleXdndEnter_eq]
      exact ⟨fun _ => rfl, id, id, id, id⟩
    · rw [if_neg h3]
      exact Or.inl (flagsKept_refl _)
  rw [if_neg h2]
  by_cases h4 : p.xdndState.amISource = true
  · rw [if_pos h4]
    unfold handleSourceMessage
    by_cases h5 : (msg.message_type == c.XdndStatus) = true
    · rw [if_pos h5]
      by_cases h6 : (msg.l1 &&& 0x1 != 1) = true
      · simp only [h6, if_true]
        exact Or.inr trivial
      · simp only [h6, if_false]
        exact Or.inl ⟨id, id, fun _ => rfl, id, id⟩
    · rw [if_neg h5]
      by_cases h7 : (msg.message_type == c.XdndFinished) = true
      · rw [if_pos h7]
        exact Or.inr rfl
      · rw [if_neg h7]
        exact Or.inl (flagsKept_refl _)
  · rw [if_neg h4]
    unfold handleTargetMessage
    cases hP : handleXdndPosition c p.xdndState msg with
    | none => exact Or.inl (flagsKept_refl _)
    | some r =>
      obtain ⟨s1, out1⟩ := r
      simp only
      have hk1 : FlagsKept p.xdndState s1 := by
        unfold handleXdndPosition at hP
        by_cases h5 : (msg.message_type == c.XdndPosition) = true
        · rw [if_pos h5] at hP
          by_cases h6 : (p.xdndState.xdndPositionReceived &&
              msg.l0 != p.xdndState.otherWindow) = true
          · rw [if_pos h6] at hP
            simp at hP
          · rw [if_neg h6] at hP
            by_cases h7 : p.xdndState.xdndStatusSent = true
            · simp only [h7, Bool.not_true, Bool.false_eq_true, if_false, Option.some.injEq,
                Prod.mk.injEq] at hP
              rw [← hP.1]
              exact ⟨id, fun _ => rfl, id, fun _ => rfl, id⟩
            · simp only [h7, Bool.not_false, if_true, Option.some.injEq, Prod.mk.injEq,
                Bool.not_eq_true] at hP
              rw [← hP.1]
              exact ⟨id, fun _ => rfl, id, fun _ => rfl, id⟩
        · rw [if_neg h5] at hP
          simp only [Option.some.injEq, Prod.mk.injEq] at hP
          rw [← hP.1]
          exact flagsKept_refl _
      unfold handleXdndLeave
      by_cases h8 : (msg.message_type == c.XdndLeave) = true
      · rw [if_pos h8]
        right
        unfold handleXdndDrop
        by_cases h9 : (msg.message_type == c.XdndDrop) = true
        · rw [if_pos h9]
          simp only [XDNDStateMachine.zero, Bool.not_false, Bool.true_or, if_true]
        · rw [if_neg h9]
      · rw [if_neg h8]
        left
        unfold handleXdndDrop
        by_cases h9 : (msg.message_type == c.XdndDrop) = true
        · rw [if_pos h9]
          by_cases h10 : (!s1.xdndPositionReceived || msg.l0 != s1.otherWindow) = true
          · rw [if_pos h10]
            exact hk1
          · rw [if_neg h10]
            obtain ⟨k1, k2, k3, k4, _⟩ := hk1
            exact ⟨k1, k2, k3, k4, fun _ => rfl⟩
        · rw [if_neg h9]
          exact hk1

/-- C12 (flag monotonicity). Whatever the state and the event, a step that returns either
leaves each of the five flags `xdndExchangeStarted`, `xdndPositionReceived`,
`xdndStatusReceived`, `xdndStatusSent`, `xdndDropReceived` set when it was set before, or has
discarded the whole session with `memset`: the state it leaves is the zero value, or the
event is a pointer motion over a window other than the peer of the session, the handler has
set the state to the zero value and has then opened a new exchange as source with that
window, of which the state holds nothing but `xdndExchangeStarted`, `amISource` and the new
`otherWindow`. No step clears a flag and keeps the peer or any other part of the session. -/
theorem flags_kept_or_session_wiped (c : Ctx) (srv : XServer) (p q : Peer) (e : XEvent)
    (out : List Output) (h : step c srv p e = .ok (q, out)) :
    FlagsKept p.xdndState q.xdndState ∨ WipedInStep c srv p.xdndState e q.xdndState := by
  cases e with
  | selectionRequest req =>
    simp only [step, handleSelectionRequest, Except.ok.injEq] at h
    split_ifs at h <;>
    · simp only [Prod.mk.injEq] at h
      rw [← h.1]
      exact Or.inl (flagsKept_refl _)
  | selectionNotify property =>
    simp only [step] at h
    unfold handleSelectionNotify at h
    by_cases hp : (property != c.XDND_DATA) = true
    · rw [if_pos hp] at h
      simp only [Except.ok.injEq, Prod.mk.injEq] at h
      rw [← h.1]
      exact Or.inl (flagsKept_refl _)
    · rw [if_neg hp] at h
      cases hg : getCopiedData srv.xdndData with
      | error f => simp [hg] at h
      | ok r =>
        cases r with
        | none => simp [hg] at h
        | some pathStr =>
          simp only [hg] at h
          cases hf : srv.fread pathStr with
          | none => simp [hf] at h
          | some colour =>
            simp only [hf, Except.ok.injEq, Prod.mk.injEq] at h
            rw [← h.1]
            exact Or.inr (Or.inl rfl)
  | motionNotify x y x_root y_root time =>
    simp only [step, Except.ok.injEq] at h
    have := motion_flags c srv p x y x_root y_root time
    rw [h] at this
    exact this
  | keyRelease keycode =>
    simp only [step, handleKeyRelease, Except.ok.injEq, Prod.mk.injEq] at h
    rw [← h.1]
    split_ifs <;> exact Or.inl (flagsKept_refl _)
  | buttonPress x y =>
    simp only [step, handleButtonPress, Except.ok.injEq, Prod.mk.injEq] at h
    rw [← h.1]
    split_ifs <;> exact Or.inl (flagsKept_refl _)
  | buttonRelease =>
    simp only [step, handleButtonRelease, Except.ok.injEq, Prod.mk.injEq] at h
    rw [← h.1]
    split_ifs <;> exact Or.inl (flagsKept_refl _)
  | expose =>
    simp only [step, Except.ok.injEq, Prod.mk.injEq] at h
    rw [← h.1]
    exact Or.inl (flagsKept_refl _)
  | enterNotify =>
    simp only [step, Except.ok.injEq, Prod.mk.injEq] at h
    rw [← h.1]
    split_ifs <;> exact Or.inl (flagsKept_refl _)
  | leaveNotify =>
    simp only [step, Except.ok.injEq, Prod.mk.injEq] at h
    rw [← h.1]
    split_ifs <;> exact Or.inl (flagsKept_refl _)
  | clientMessage msg =>
    simp only [step, Except.ok.injEq] at h
    have := clientMessage_flags c srv p msg
    rw [h] at this
    exact this.imp id Or.inl
  | other =>
    simp only [step, Except.ok.injEq, Prod.mk.injEq] at h
    rw [← h.1]
    exact Or.inl (flagsKept_refl _)

/-- C12, at a concrete input: the source `101`, which holds the accepting `XdndStatus` of
its peer `102`, is dragged over window `103`. The step clears the flag `xdndStatusReceived`:
it discards the session with `102` and opens one with `103`. -/
theorem flags_kept_or_session_wiped_witness :
    step (exampleCtx 101) (exampleServer none)
      { exampleSource with xdndState := { exampleSource.xdndState with
          xdndStatusReceived := true } }
      (.motionNotify 260 40 450 50 2000) = .ok
      ({ exampleSource with
          square := { exampleSource.square with
            x := 150, y := 30, mouse_x := 260, mouse_y := 40 },
          xdndState := { XDNDStateMachine.zero with
            xdndExchangeStarted := true, amISource := true, otherWindow := 103 } },
       [Output.sendEvent 102 (exampleMessage 102 6 101),
        Output.setSelectionOwner 9 101 2000,
        Output.sendEvent 103 { exampleMessage 103 3 101 with l1 := 5 <<< 24, l2 := 21 },
        Output.sendEvent 103
          { exampleMessage 103 4 101 with l2 := 450 * 65536 + 50, l3 := 2000, l4 := 5 }]) ∧
    (FlagsKept { exampleSource.xdndState with xdndStatusReceived := true }
        { XDNDStateMachine.zero with
          xdndExchangeStarted := true, amISource := true, otherWindow := 103 } ∨
      WipedInStep (exampleCtx 101) (exampleServer none)
        { exampleSource.xdndState with xdndStatusReceived := true }
        (.motionNotify 260 40 450 50 2000)
        { XDNDStateMachine.zero with
          xdndExchangeStarted := true, amISource := true, otherWindow := 103 }) :=
  ⟨by decide,
   flags_kept_or_session_wiped (exampleCtx 101) (exampleServer none)
     { exampleSource with xdndState := { exampleSource.xdndState with
        xdndStatusReceived := true } }
     { exampleSource with
        square := { exampleSource.square with
          x := 150, y := 30, mouse_x := 260, mouse_y := 40 },
        xdndState := { XDNDStateMachine.zero with
          xdndExchangeStarted := true, amISource := true, otherWindow := 103 } }
     (.motionNotify 260 40 450 50 2000)
     [Output.sendEvent 102 (exampleMessage 102 6 101),
      Output.setSelectionOwner 9 101 2000,
      Output.sendEvent 103 { exampleMessage 103 3 101 with l1 := 5 <<< 24, l2 := 21 },
      Output.sendEvent 103
        { exampleMessage 103 4 101 with l2 := 450 * 65536 + 50, l3 := 2000, l4 := 5 }]
     (by decide)⟩

theorem clampCoord_eq_min_max (v : Int) : clampCoord v = min (max v 0) 150 := by
  unfold clampCoord
  simp only [min_def, max_def]
  split_ifs <;> omega

theorem motion_square (c : Ctx) (srv : XServer) (p : Peer) (x y x_root y_root : Int)
    (time : Time) :
    (handleMotionNotify c srv p x y x_root y_root time).1.square = p.square ∨
    ((handleMotionNotify c srv p x y x_root y_root time).1.square.x =
        clampCoord (toInt (p.square.x + toInt (x - p.square.mouse_x))) ∧
      (handleMotionNotify c srv p x y x_root y_root time).1.square.y =
        clampCoord (toInt (p.square.y + toInt (y - p.square.mouse_y)))) := by
  unfold handleMotionNotify
  by_cases hsel : p.square.selected = true
  swap
  · simp [hsel]
  by_cases hclick : p.clickedStillInWindow = true
  · simp [hsel, hclick]
  by_cases hT : getWindowPointerIsOver srv.tree x_root y_root 0 0 = 0
  · simp [hsel, hclick, hT]
  simp only [hsel, hclick, if_true, Bool.not_eq_true, Bool.not_eq_true', beq_iff_eq, hT,
    if_false, Bool.false_eq_true, Bool.not_false]
  right
  rcases motionLeave c p.xdndState (getWindowPointerIsOver srv.tree x_root y_root 0 0) with
    ⟨s1, out1⟩
  simp only
  cases motionEnter c srv s1 (getWindowPointerIsOver srv.tree x_root y_root 0 0) time with
  | none => simp
  | some r => simp

theorem clientMessage_square (c : Ctx) (srv : XServer) (p : Peer) (msg : ClientMessage) :
    (handleClientMessage c srv p msg).1.square.x = p.square.x ∧
    (handleClientMessage c srv p msg).1.square.y = p.square.y := by
  unfold handleClientMessage
  by_cases h1 : (msg.message_type == c.WM_PROTOCOLS && msg.l0 == c.WM_DELETE_WINDOW) = true
  · rw [if_pos h1]
    exact ⟨rfl, rfl⟩
  rw [if_neg h1]
  by_cases h2 : (!p.xdndState.xdndExchangeStarted) = true
  · rw [if_pos h2]
    by_cases h3 : (msg.message_type == c.XdndEnter) = true
    · rw [if_pos h3]
      exact ⟨rfl, rfl⟩
    · rw [if_neg h3]
      exact ⟨rfl, rfl⟩
  rw [if_neg h2]
  by_cases h4 : p.xdndState.amISource = true
  · rw [if_pos h4]
    unfold handleSourceMessage
    split_ifs <;> exact ⟨rfl, rfl⟩
  · rw [if_neg h4]
    unfold handleTargetMessage
    cases handleXdndPosition c p.xdndState msg with
    | none => exact ⟨rfl, rfl⟩
    | some r => exact ⟨rfl, rfl⟩

/-- What a step does to the position of the square: it keeps it, or it stores two clamped
values; after a `SelectionNotify` for `XDND_DATA` these are the clamped pointer position. -/
theorem step_square (c : Ctx) (srv : XServer) (p q : Peer) (e : XEvent) (out : List Output)
    (h : step c srv p e = .ok (q, out)) :
    ((q.square.x = p.square.x ∧ q.square.y = p.square.y) ∨
      ∃ a b, q.square.x = clampCoord a ∧ q.square.y = clampCoord b) ∧
    (e = .selectionNotify c.XDND_DATA →
      q.square.x = clampCoord (toInt (srv.winXReturn - 25)) ∧
      q.square.y = clampCoord (toInt (srv.winYReturn - 25))) := by
  cases e with
  | selectionRequest req =>
    simp only [step, handleSelectionRequest, Except.ok.injEq] at h
    refine ⟨?_, by simp⟩
    split_ifs at h <;>
    · simp only [Prod.mk.injEq] at h
      rw [← h.1]
      exact Or.inl ⟨rfl, rfl⟩
  | selectionNotify property =>
    simp only [step] at h
    unfold handleSelectionNotify at h
    by_cases hp : (property != c.XDND_DATA) = true
    · rw [if_pos hp] at h
      simp only [Except.ok.injEq, Prod.mk.injEq] at h
      rw [← h.1]
      refine ⟨Or.inl ⟨rfl, rfl⟩, ?_⟩
      intro he
      simp only [XEvent.selectionNotify.injEq] at he
      simp [he] at hp
    · rw [if_neg hp] at h
      cases hg : getCopiedData srv.xdndData with
      | error f => simp [hg] at h
      | ok r =>
        cases r with
        | none => simp [hg] at h
        | some pathStr =>
          simp only [hg] at h
          cases hf : srv.fread pathStr with
          | none => simp [hf] at h
          | some colour =>
            simp only [hf, Except.ok.injEq, Prod.mk.injEq] at h
            rw [← h.1]
            exact ⟨Or.inr ⟨_, _, rfl, rfl⟩, fun _ => ⟨rfl, rfl⟩⟩
  | motionNotify x y x_root y_root time =>
    simp only [step, Except.ok.injEq] at h
    refine ⟨?_, by simp⟩
    have := motion_square c srv p x y x_root y_root time
    rw [h] at this
    rcases this with h1 | ⟨h1, h2⟩
    · simp only at h1
      rw [h1]
      exact Or.inl ⟨rfl, rfl⟩
    · exact Or.inr ⟨_, _, h1, h2⟩
  | keyRelease keycode =>
    simp only [step, handleKeyRelease, Except.ok.injEq, Prod.mk.injEq] at h
    rw [← h.1]
    refine ⟨?_, by simp⟩
    split_ifs <;> exact Or.inl ⟨rfl, rfl⟩
  | buttonPress x y =>
    simp only [step, handleButtonPress, Except.ok.injEq, Prod.mk.injEq] at h
    rw [← h.1]
    refine ⟨?_, by simp⟩
    split_ifs <;> exact Or.inl ⟨rfl, rfl⟩
  | buttonRelease =>
    simp only [step, handleButtonRelease, Except.ok.injEq, Prod.mk.injEq] at h
    rw [← h.1]
    refine ⟨?_, by simp⟩
    split_ifs <;> exact Or.inl ⟨rfl, rfl⟩
  | expose =>
    simp only [step, Except.ok.injEq, Prod.mk.injEq] at h
    rw [← h.1]
    exact ⟨Or.inl ⟨rfl, rfl⟩, by simp⟩
  | enterNotify =>
    simp only [step, Except.ok.injEq, Prod.mk.injEq] at h
    rw [← h.1]
    refine ⟨?_, by simp⟩
    split_ifs <;> exact Or.inl ⟨rfl, rfl⟩
  | leaveNotify =>
    simp only [step, Except.ok.injEq, Prod.mk.injEq] at h
    rw [← h.1]
    refine ⟨?_, by simp⟩
    split_ifs <;> exact Or.inl ⟨rfl, rfl⟩
  | clientMessage msg =>
    simp only [step, Except.ok.injEq] at h
    have := clientMessage_square c srv p msg
    rw [h] at this
    exact ⟨Or.inl this, by simp⟩
  | other =>
    simp only [step, Except.ok.injEq, Prod.mk.injEq] at h
    rw [← h.1]
    exact ⟨Or.inl ⟨rfl, rfl⟩, by simp⟩

theorem square_inside_run (c : Ctx) (evs : List (XEvent × XServer)) (p : Peer)
    (hp : 0 ≤ p.square.x ∧ p.square.x ≤ 150 ∧ 0 ≤ p.square.y ∧ p.square.y ≤ 150)
    (k : Nat) (r : Peer × List Output) (hr : (runLoop c p evs)[k]? = some r) :
    0 ≤ r.1.square.x ∧ r.1.square.x ≤ 150 ∧ 0 ≤ r.1.square.y ∧ r.1.square.y ≤ 150 := by
  induction evs generalizing p k with
  | nil => simp [runLoop] at hr
  | cons ev rest ih =>
    obtain ⟨e, srv⟩ := ev
    obtain ⟨r0, hs, hrl⟩ := runLoop_cons_ok c p e srv rest k r hr
    have h0 : 0 ≤ r0.1.square.x ∧ r0.1.square.x ≤ 150 ∧ 0 ≤ r0.1.square.y ∧
        r0.1.square.y ≤ 150 := by
      rcases (step_square c srv p r0.1 e r0.2 hs).1 with ⟨h1, h2⟩ | ⟨a, b, h1, h2⟩
      · rw [h1, h2]
        exact hp
      · rw [h1, h2]
        exact ⟨(clampCoord_bounds a).1, (clampCoord_bounds a).2, (clampCoord_bounds b).1,
          (clampCoord_bounds b).2⟩
    rw [hrl] at hr
    cases k with
    | zero =>
      simp only [List.getElem?_cons_zero, Option.some.injEq] at hr
      rw [← hr]
      exact h0
    | succ k =>
      simp only [List.getElem?_cons_succ] at hr
      exact ih r0.1 h0 k hr

theorem toInt_of_int (v : Int) (h : -2 ^ 31 ≤ v ∧ v < 2 ^ 31) : toInt v = v := by
  unfold toInt
  omega

/-- C15 (placement inside the host window). In every run of the event loop from the initial
state (square at `0, 0`), after each event handled, of whatever kind and with whatever
coordinates, the square origin satisfies `0 ≤ x ≤ 150` and `0 ≤ y ≤ 150`. When the event was
a `SelectionNotify` for `XDND_DATA` with window-relative pointer position
`(winXReturn, winYReturn)`, the origin is the clamped value of the 32-bit differences
`winXReturn - 25` and `winYReturn - 25`; so for a pointer coordinate that is an `int` whose
difference with 25 does not overflow (every coordinate of the X protocol, which is 16-bit),
`x = min (max (winXReturn - 25) 0) 150`, and likewise `y`. -/
theorem square_placed_inside_window (c : Ctx) (procId : Int) (evs : List (XEvent × XServer))
    (k : Nat) (r : Peer × List Output)
    (hr : (runLoop c (initialPeer procId) evs)[k]? = some r) :
    (0 ≤ r.1.square.x ∧ r.1.square.x ≤ 150 ∧ 0 ≤ r.1.square.y ∧ r.1.square.y ≤ 150) ∧
    ∀ srv, evs[k]? = some (.selectionNotify c.XDND_DATA, srv) →
      (r.1.square.x = min (max (toInt (srv.winXReturn - 25)) 0) 150 ∧
        r.1.square.y = min (max (toInt (srv.winYReturn - 25)) 0) 150) ∧
      (-2 ^ 31 ≤ srv.winXReturn - 25 ∧ srv.winXReturn < 2 ^ 31 →
        r.1.square.x = min (max (srv.winXReturn - 25) 0) 150) ∧
      (-2 ^ 31 ≤ srv.winYReturn - 25 ∧ srv.winYReturn < 2 ^ 31 →
        r.1.square.y = min (max (srv.winYReturn - 25) 0) 150) := by
  refine ⟨square_inside_run c evs (initialPeer procId) (by simp [initialPeer]) k r hr, ?_⟩
  intro srv hev
  obtain ⟨pre, e, srv1, _, hev1, hstep⟩ := runLoop_step c evs (initialPeer procId) k r hr
  rw [hev] at hev1
  simp only [Option.some.injEq, Prod.mk.injEq] at hev1
  obtain ⟨he, hsrv⟩ := hev1
  subst he hsrv
  have hxy := (step_square c srv pre r.1 _ r.2 hstep).2 rfl
  rw [clampCoord_eq_min_max, clampCoord_eq_min_max] at hxy
  refine ⟨hxy, ?_, ?_⟩
  · intro hx
    rw [hxy.1, toInt_of_int _ ⟨hx.1, by omega⟩]
  · intro hy
    rw [hxy.2, toInt_of_int _ ⟨hy.1, by omega⟩]

/-- C15, at a concrete input: the target `102` handles an `XdndEnter` and then the
`SelectionNotify` while the pointer is at `(-40, 900)` in its window: the square is placed
at `(0, 150)`. -/
theorem square_placed_inside_window_witness :
    (runLoop (exampleCtx 102) (initialPeer 1)
      [(.clientMessage { exampleMessage 102 3 101 with l1 := 5 <<< 24, l2 := 21 },
          exampleServer none),
       (.selectionNotify 10,
          { exampleServer (some (propertyData SQUARE_FILE_PATH)) with
            winXReturn := -40, winYReturn := 900 })])[1]? =
      some ({ initialPeer 1 with square := { (initialPeer 1).square with
            x := 0, y := 150, visible := true } },
        [Output.deleteProperty 102 10,
         Output.sendEvent 101 { exampleMessage 101 12 102 with l1 := 1, l2 := 5 }]) ∧
    ((-2 ^ 31 : Int) ≤ -40 - 25 ∧ (-40 : Int) < 2 ^ 31) ∧
    ((-2 ^ 31 : Int) ≤ 900 - 25 ∧ (900 : Int) < 2 ^ 31) ∧
    (0 : Int) = min (max (-40 - 25) 0) 150 ∧ (150 : Int) = min (max (900 - 25) 0) 150 := by
  have w := (square_placed_inside_window (exampleCtx 102) 1
      [(.clientMessage { exampleMessage 102 3 101 with l1 := 5 <<< 24, l2 := 21 },
          exampleServer none),
       (.selectionNotify 10,
          { exampleServer (some (propertyData SQUARE_FILE_PATH)) with
            winXReturn := -40, winYReturn := 900 })] 1
      ({ initialPeer 1 with square := { (initialPeer 1).square with
            x := 0, y := 150, visible := true } },
        [Output.deleteProperty 102 10,
         Output.sendEvent 101 { exampleMessage 101 12 102 with l1 := 1, l2 := 5 }])
      (by decide)).2 _ rfl
  exact ⟨by decide, ⟨by decide, by decide⟩, ⟨by decide, by decide⟩,
    w.2.1 ⟨by decide, by decide⟩, w.2.2 ⟨by decide, by decide⟩⟩

/-- Outside that range the 32-bit difference wraps around: with the pointer reported at
`winXReturn = -2147483640` the target stores `x = 150`, where
`min (max (winXReturn - 25) 0) 150` is `0`. -/
theorem square_placement_wraps :
    (handleSelectionNotify (exampleCtx 102)
        { exampleServer (some (propertyData SQUARE_FILE_PATH)) with
          winXReturn := -2147483640, winYReturn := 70 }
        exampleTargetTracking 10).map (fun r => (r.1.square.x, r.1.square.y)) =
      .ok (150, 45) ∧
    min (max ((-2147483640 : Int) - 25) 0) 150 = 0 := by
  decide

theorem toInt_of_small (n : Nat) (h : n < 2 ^ 31) : toInt (n : Int) = n := by
  unfold toInt
  omega

theorem ofLong_of_nat (n : Nat) (h : n < 2 ^ 64) : ofLong (n : Int) = n := by
  unfold ofLong
  omega

theorem asLong_of_small (n : Nat) (h : n < 2 ^ 63) : asLong n = n := by
  unfold asLong
  have : n % 2 ^ 64 = n := Nat.mod_eq_of_lt (by omega)
  rw [this, if_pos h]

theorem encode_position (a b : Nat) (ha : a < 2 ^ 15) (hb : b < 2 ^ 16) :
    ofLong (toInt (Int.lor ((a : Int) * 2 ^ 16) (b : Int))) = 2 ^ 16 * a + b := by
  have h1 : ((a : Int) * 2 ^ 16) = ((2 ^ 16 * a : Nat) : Int) := by push_cast; ring
  rw [h1]
  have h2 : Int.lor ((2 ^ 16 * a : Nat) : Int) (b : Int) = ((2 ^ 16 * a ||| b : Nat) : Int) := rfl
  rw [h2, ← Nat.mul_add_lt_is_or hb a]
  rw [toInt_of_small _ (by omega), ofLong_of_nat _ (by omega)]

theorem decode_rootX (a b : Nat) (ha : a < 2 ^ 15) (hb : b < 2 ^ 16) :
    toInt (asLong (2 ^ 16 * a + b) >>> 16) = a := by
  rw [asLong_of_small _ (by omega)]
  have h : ((2 ^ 16 * a + b : Nat) : Int) >>> 16 = ((2 ^ 16 * a + b) >>> 16 : Nat) := rfl
  rw [h, Nat.shiftRight_eq_div_pow]
  have : (2 ^ 16 * a + b) / 2 ^ 16 = a := by omega
  rw [this, toInt_of_small _ (by omega)]

theorem decode_rootY (a b : Nat) (ha : a < 2 ^ 15) (hb : b < 2 ^ 16) :
    toInt (Int.land (asLong (2 ^ 16 * a + b)) 0xFFFF) = b := by
  rw [asLong_of_small _ (by omega)]
  have h : Int.land ((2 ^ 16 * a + b : Nat) : Int) 0xFFFF =
      ((2 ^ 16 * a + b &&& 0xFFFF : Nat) : Int) := rfl
  rw [h]
  have h2 : (2 ^ 16 * a + b) &&& 0xFFFF = (2 ^ 16 * a + b) % 2 ^ 16 :=
    Nat.and_pow_two_sub_one_eq_mod _ 16
  rw [h2]
  have : (2 ^ 16 * a + b) % 2 ^ 16 = b := by omega
  rw [this, toInt_of_small _ (by omega)]

theorem target_records_position (c : Ctx) (hd : c.MessageAtomsDistinct) (srv : XServer)
    (p : Peer) (m : ClientMessage)
    (hstarted : p.xdndState.xdndExchangeStarted = true)
    (htarget : p.xdndState.amISource = false)
    (hty : m.message_type = c.XdndPosition)
    (hfirst : p.xdndState.xdndPositionReceived = false ∨ m.l0 = p.xdndState.otherWindow) :
    ∃ q out, step c srv p (.clientMessage m) = .ok (q, out) ∧
      q.xdndState.p_rootX = toInt (asLong m.l2 >>> 16) ∧
      q.xdndState.p_rootY = toInt (Int.land (asLong m.l2) 0xFFFF) ∧
      q.xdndState.xdndLastPositionTimestamp = m.l3 ∧
      q.xdndState.proposedAction = m.l4 ∧
      q.xdndState.xdndPositionReceived = true := by
  have hne := distinct_ne c hd
  have hig : (p.xdndState.xdndPositionReceived && m.l0 != p.xdndState.otherWindow) = false := by
    rcases hfirst with h | h
    · simp [h]
    · simp [h]
  cases hsent : p.xdndState.xdndStatusSent with
  | true =>
    refine ⟨{ p with xdndState := { p.xdndState with
        xdndPositionReceived := true,
        p_rootX := toInt (asLong m.l2 >>> 16),
        p_rootY := toInt (Int.land (asLong m.l2) 0xFFFF),
        proposedAction := m.l4,
        xdndLastPositionTimestamp := m.l3 } }, [], ?_, rfl, rfl, rfl, rfl, rfl⟩
    simp [step, handleClientMessage, handleTargetMessage, handleXdndPosition,
      handleXdndLeave, handleXdndDrop, hstarted, htarget, hsent, hty, hne, hig]
  | false =>
    refine ⟨{ p with xdndState := { p.xdndState with
        xdndPositionReceived := true, xdndStatusSent := true,
        p_rootX := toInt (asLong m.l2 >>> 16),
        p_rootY := toInt (Int.land (asLong m.l2) 0xFFFF),
        proposedAction := m.l4,
        xdndLastPositionTimestamp := m.l3 } },
      sendXdndStatus c { p.xdndState with
        xdndPositionReceived := true, xdndStatusSent := true,
        p_rootX := toInt (asLong m.l2 >>> 16),
        p_rootY := toInt (Int.land (asLong m.l2) 0xFFFF),
        proposedAction := m.l4,
        xdndLastPositionTimestamp := m.l3 } c.wind p.xdndState.otherWindow m.l4,
      ?_, rfl, rfl, rfl, rfl, rfl⟩
    simp [step, handleClientMessage, handleTargetMessage, handleXdndPosition,
      handleXdndLeave, handleXdndDrop, hstarted, htarget, hsent, hty, hne, hig]

/-- C17 (position codec round trip). For `0 ≤ rootX < 2^15`, `0 ≤ rootY < 2^16` and a
timestamp `t < 2^31`, let `m` be the message `sendXdndPosition` builds for the target window
`c.wind` (slot 2 `rootX << 16 | rootY`, slot 3 `t`, slot 4 the copy action). A target session
that has received no position yet, or whose recorded peer is the sender, handles `m` and
records `p_rootX = rootX`, `p_rootY = rootY`, `xdndLastPositionTimestamp = t` and
`proposedAction = XdndActionCopy`. -/
theorem position_codec_round_trip (c : Ctx) (hd : c.MessageAtomsDistinct) (srv : XServer)
    (p : Peer) (s : XDNDStateMachine) (source : Window) (rootX rootY : Int) (t : Time)
    (m : ClientMessage)
    (hx : 0 ≤ rootX ∧ rootX < 2 ^ 15) (hy : 0 ≤ rootY ∧ rootY < 2 ^ 16) (ht : t < 2 ^ 31)
    (hstarted : p.xdndState.xdndExchangeStarted = true)
    (htarget : p.xdndState.amISource = false)
    (hfirst : p.xdndState.xdndPositionReceived = false ∨ source = p.xdndState.otherWindow)
    (hm : sendXdndPosition c s source c.wind (t : Int) rootX rootY =
      [Output.sendEvent c.wind m]) :
    ∃ q out, step c srv p (.clientMessage m) = .ok (q, out) ∧
      q.xdndState.p_rootX = rootX ∧ q.xdndState.p_rootY = rootY ∧
      q.xdndState.xdndLastPositionTimestamp = t ∧
      q.xdndState.proposedAction = c.XdndActionCopy := by
  obtain ⟨hx0, hx1⟩ := hx
  obtain ⟨hy0, hy1⟩ := hy
  lift rootX to Nat using hx0
  lift rootY to Nat using hy0
  have ha : rootX < 2 ^ 15 := by exact_mod_cast hx1
  have hb : rootY < 2 ^ 16 := by exact_mod_cast hy1
  have henc := encode_position rootX rootY ha hb
  have hl3 : ofLong (t : Int) = t := ofLong_of_nat t (lt_trans ht (by norm_num))
  unfold sendXdndPosition at hm
  by_cases hg : (s.xdndExchangeStarted && s.amISource) = true
  swap
  · rw [if_neg hg] at hm
    simp at hm
  rw [if_pos hg, henc, hl3] at hm
  simp only [List.cons.injEq, Output.sendEvent.injEq, true_and, and_true] at hm
  have e0 : m.l0 = source := by rw [← hm]
  have e2 : m.l2 = 2 ^ 16 * rootX + rootY := by rw [← hm]
  have e3 : m.l3 = t := by rw [← hm]
  have e4 : m.l4 = c.XdndActionCopy := by rw [← hm]
  have ety : m.message_type = c.XdndPosition := by rw [← hm]
  obtain ⟨q, out, hstep, h1, h2, h3, h4, _⟩ :=
    target_records_position c hd srv p m hstarted htarget ety (by rw [e0]; exact hfirst)
  refine ⟨q, out, hstep, ?_, ?_, h3.trans e3, h4.trans e4⟩
  · rw [h1, e2]
    exact decode_rootX rootX rootY ha hb
  · rw [h2, e2]
    exact decode_rootY rootX rootY ha hb

/-- C17, at a concrete input: the position `(250, 50)` with timestamp `2000`, sent by the
source `101` to the target `102`, which has not received a position yet. -/
theorem position_codec_round_trip_witness :
    (exampleCtx 102).MessageAtomsDistinct ∧
    sendXdndPosition (exampleCtx 102) exampleSource.xdndState 101 102 2000 250 50 =
      [Output.sendEvent 102
        { exampleMessage 102 4 101 with l2 := 250 * 65536 + 50, l3 := 2000, l4 := 5 }] ∧
    ∃ q out, step (exampleCtx 102) (exampleServer none) exampleTarget
        (.clientMessage
          { exampleMessage 102 4 101 with l2 := 250 * 65536 + 50, l3 := 2000, l4 := 5 }) =
          .ok (q, out) ∧
      q.xdndState.p_rootX = 250 ∧ q.xdndState.p_rootY = 50 ∧
      q.xdndState.xdndLastPositionTimestamp = 2000 ∧
      q.xdndState.proposedAction = 5 :=
  ⟨by decide, by decide,
   position_codec_round_trip (exampleCtx 102) (by decide) (exampleServer none) exampleTarget
     exampleSource.xdndState 101 250 50 2000
     { exampleMessage 102 4 101 with l2 := 250 * 65536 + 50, l3 := 2000, l4 := 5 }
     (by decide) (by decide) (by decide) rfl rfl (Or.inl rfl) (by decide)⟩

/-- C14, evaluated at failing inputs. For the NUL-free buffer `xfile://abc`, which does not
begin with `file://` and does not end in CR LF, `getCopiedData` returns `/abc` instead of
the buffer: `strstr` finds the scheme anywhere and 7 bytes are skipped. For the empty buffer
and for the one-byte buffer `A`, the terminator test reads `tempPtr[strlen(tempPtr)-2]`
before the start of the buffer. -/
theorem unframing_strips_inner_scheme_and_reads_before_buffer :
    getCopiedData (some (120 :: fileScheme ++ [97, 98, 99])) = .ok (some [47, 97, 98, 99]) ∧
    getCopiedData (some []) = .error Fault.undefined ∧
    getCopiedData (some [65]) = .error Fault.undefined := by
  decide

end Xdnd
